import Mathlib

/-!
# Verification of the delivery_system Dispatch & Live-Tracking Engine

A shallow embedding of the dispatch assignment engine, the vehicle movement
state machine, the route geometry service and the real-time broadcast manager
of the `delivery_system` repository
(`src/backend/services/vehicle_movement_service.py`,
`src/backend/services/rede_service.py`, `src/backend/api/websocket.py`),
together with proofs and refutations of the specification's claims.

Conventions of the embedding:
* Python floats are modelled as `ℚ` inside the state machine (all the
  arithmetic the claims depend on is exact there) and as `ℝ` for the
  trigonometric distance primitives.
* Python dicts are association lists (`Dict α`), Python sets are `List String`
  without duplicates-sensitivity (only membership is ever observed).
* Timestamps are rationals (seconds); `datetime.now()` becomes an explicit
  `now : ℚ` parameter; `timedelta(minutes=m)` becomes `60 * m`.
* Every call of Python's `random` is an explicit environment parameter.
* The trigonometric primitives `_calculate_distance`,
  `_calcular_distancia_haversine`, `_calcular_heading` and
  `_calculate_heading_to_hub` are opaque parameters (`GeoFns`) of the state
  machine, since the state machine only ever compares their values; their
  real-valued bodies are embedded separately for the distance claims.
* The simulation is modelled in the configuration where the external road
  graph is unavailable (`OSMNX_AVAILABLE = False` / `real_network_graph is
  None`), the configuration the code must support identically; there route
  construction deterministically uses the synthetic fallback.
-/

namespace DeliverySystem

/-! ## Dictionaries and sets

Python `dict` as an insertion-ordered association list and Python `set`
observed only through membership. -/

abbrev Dict (α : Type) := List (String × α)

/-- Lookup of a key (first binding wins; bindings are kept unique by `dset`). -/
def dget {α : Type} : Dict α → String → Option α
  | [], _ => none
  | (k', v) :: rest, k => if k' = k then some v else dget rest k

/-- `d.get(k, default)`. -/
def dgetD {α : Type} (m : Dict α) (k : String) (dflt : α) : α :=
  (dget m k).getD dflt

/-- `d[k] = v`: replace the binding in place, or append a fresh one. -/
def dset {α : Type} : Dict α → String → α → Dict α
  | [], k, v => [(k, v)]
  | (k', v') :: rest, k, v =>
      if k' = k then (k, v) :: rest else (k', v') :: dset rest k v

/-- `k in d`. -/
def dmem {α : Type} (m : Dict α) (k : String) : Bool :=
  (dget m k).isSome

/-- `del d[k]` (removes every binding of the key). -/
def ddel {α : Type} (m : Dict α) (k : String) : Dict α :=
  m.filter (fun p => !(p.1 == k))

/-- `s.add(x)` on a Python set. -/
def sadd (s : List String) (x : String) : List String :=
  if s.contains x then s else s ++ [x]

/-- `s.discard(x)` on a Python set. -/
def sdiscard (s : List String) (x : String) : List String :=
  s.filter (fun y => !(y == x))

/-! ## Data model

Mirrors `src/core/entities/models.py` (`Cliente`, `Hub`, `Deposito`,
`Veiculo`) and the tracking dataclasses of
`src/backend/services/rede_service.py` (`RouteWaypoint`, `DetailedRoute`,
`VehiclePosition`) and `vehicle_movement_service.py`
(`VehicleMovementState`).  Only the fields the dispatch engine reads are
kept; `prioridade` is the numeric value of the `PrioridadeCliente` enum
(URGENTE = 1, ALTA = 2, NORMAL = 3, BAIXA = 4). -/

structure Cliente where
  id : String
  latitude : ℚ
  longitude : ℚ
  demanda_media : ℤ := 1
  prioridade : ℤ := 3
  deriving Repr, DecidableEq

structure Hub where
  id : String
  latitude : ℚ
  longitude : ℚ
  deriving Repr, DecidableEq

structure Deposito where
  id : String
  latitude : ℚ
  longitude : ℚ
  deriving Repr, DecidableEq

structure Veiculo where
  id : String
  hub_base : String
  deriving Repr, DecidableEq

structure Rede where
  depositos : List Deposito := []
  hubs : List Hub
  clientes : List Cliente
  veiculos : List Veiculo
  deriving Repr, DecidableEq

structure RouteWaypoint where
  latitude : ℚ
  longitude : ℚ
  sequence : ℕ
  estimated_time : ℚ
  is_stop : Bool
  deriving Repr, DecidableEq

instance : Inhabited RouteWaypoint := ⟨⟨0, 0, 0, 0, false⟩⟩

structure DetailedRoute where
  route_id : String
  origin_id : String
  destination_id : String
  waypoints : List RouteWaypoint
  total_distance : ℚ
  estimated_duration : ℚ
  traffic_factor : ℚ := 1
  optimized : Bool := false
  deriving Repr, DecidableEq

structure VehiclePosition where
  vehicle_id : String
  latitude : ℚ
  longitude : ℚ
  timestamp : ℚ
  speed : ℚ
  heading : ℚ
  status : String
  deriving Repr, DecidableEq

structure VehicleMovementState where
  vehicle_id : String
  route_id : Option String := none
  progress_percent : ℚ := 0
  status : String := "idle"
  last_update : Option ℚ := none
  target_progress : ℚ := 100
  movement_speed : ℚ := 10
  pause_until : Option ℚ := none
  current_client_id : Option String := none
  return_start_lat : Option ℚ := none
  return_start_lon : Option ℚ := none
  hub_target_lat : Option ℚ := none
  hub_target_lon : Option ℚ := none
  deriving Repr, DecidableEq

/-- The mutable state shared by one `VehicleMovementService` and its
`RedeService`: the per-vehicle movement records and dispatch tables of the
movement service, and the telemetry store (`vehicle_positions`,
`detailed_routes`) of the rede service.  `demanda_restante` and
`clientes_em_atendimento` are `Option`s because the Python attributes are
created only on first use (`getattr(self, ..., None)`). -/
structure SimState where
  vehicle_states : Dict VehicleMovementState := []
  demanda_restante : Option (Dict ℤ) := none
  clientes_em_atendimento : Option (List String) := none
  clientes_atendidos : Dict (List String) := []
  detailed_routes : Dict DetailedRoute := []
  vehicle_positions : Dict VehiclePosition := []
  is_running : Bool := false
  deriving Repr, DecidableEq

/-- The four trigonometric primitives the state machine calls, abstracted:
the machine only threads their values through.  `mdist` is
`VehicleMovementService._calculate_distance`, `hdist` is
`RedeService._calcular_distancia_haversine`, `heading` is
`RedeService._calcular_heading`, `headingToHub` is
`VehicleMovementService._calculate_heading_to_hub`.  Their real-valued
bodies are embedded separately below for the distance claims. -/
structure GeoFns where
  mdist : ℚ → ℚ → ℚ → ℚ → ℚ
  hdist : ℚ → ℚ → ℚ → ℚ → ℚ
  heading : ℚ → ℚ → ℚ → ℚ → ℚ
  headingToHub : ℚ → ℚ → ℚ → ℚ → ℚ

/-- A `GeoFns` bundle for concrete evaluations (all primitives zero); the
theorems about the state machine hold for every bundle. -/
def geoZero : GeoFns :=
  { mdist := fun _ _ _ _ => 0, hdist := fun _ _ _ _ => 0,
    heading := fun _ _ _ _ => 0, headingToHub := fun _ _ _ _ => 0 }

/-! ## Lookups on a rede -/

/-- `next((h for h in rede.hubs if h.id == hid), None)`. -/
def findHub (rede : Rede) (hid : String) : Option Hub :=
  rede.hubs.find? (fun h => h.id == hid)

/-- `next((v for v in rede.veiculos if v.id == vid), None)`. -/
def findVeiculo (rede : Rede) (vid : String) : Option Veiculo :=
  rede.veiculos.find? (fun v => v.id == vid)

/-- `RedeService._obter_coordenadas_no`: depots first, then hubs, then
clients. -/
def obter_coordenadas_no (rede : Rede) (node_id : String) : Option (ℚ × ℚ) :=
  match rede.depositos.find? (fun d => d.id == node_id) with
  | some d => some (d.latitude, d.longitude)
  | none =>
    match rede.hubs.find? (fun h => h.id == node_id) with
    | some h => some (h.latitude, h.longitude)
    | none =>
      match rede.clientes.find? (fun c => c.id == node_id) with
      | some c => some (c.latitude, c.longitude)
      | none => none

/-! ## Position & telemetry store (`rede_service.py`) -/

/-- `RedeService.obter_posicao_veiculo`. -/
def obter_posicao_veiculo (s : SimState) (vehicle_id : String) :
    Option VehiclePosition :=
  dget s.vehicle_positions vehicle_id

/-- `RedeService.atualizar_posicao_veiculo`: overwrite the stored position
and return it (`get_brazilian_timestamp()` is the explicit `now`). -/
def atualizar_posicao_veiculo (s : SimState) (now : ℚ) (vehicle_id : String)
    (latitude longitude speed heading : ℚ) (status : String) :
    SimState × VehiclePosition :=
  let p : VehiclePosition :=
    { vehicle_id := vehicle_id, latitude := latitude, longitude := longitude,
      timestamp := now, speed := speed, heading := heading, status := status }
  ({ s with vehicle_positions := dset s.vehicle_positions vehicle_id p }, p)

/-- `RedeService.obter_todas_posicoes_veiculos`: all stored positions,
optionally filtered to the vehicles of one cached rede; then every position
whose status is `"idle"` and whose movement state (in the
`movement_service` consulted by the rede service, when present) has no
`current_client_id` is dropped.  `movement_states` is
`movement_service.vehicle_states` when the rede service holds a movement
service, `none` otherwise. -/
def obter_todas_posicoes_veiculos (redes_cache : Dict Rede)
    (movement_states : Option (Dict VehicleMovementState))
    (positions : Dict VehiclePosition) (rede_id : Option String) :
    List VehiclePosition :=
  let ps := positions.map (·.2)
  let ps :=
    match rede_id with
    | none => ps
    | some rid =>
      if rid = "" then ps else
      match dget redes_cache rid with
      | none => ps
      | some rede =>
        ps.filter (fun p => rede.veiculos.any (fun v => v.id == p.vehicle_id))
  ps.filter (fun p =>
    if p.status != "idle" then true
    else
      match movement_states with
      | none => false
      | some states =>
        match dget states p.vehicle_id with
        | none => false
        | some st => st.current_client_id.isSome)

/-! ## Route geometry service (`rede_service.py`) -/

/-- `RedeService._calcular_rota_sintetica`: ten evenly interpolated
waypoints from origin to destination; duration from the Haversine distance
at an assumed 25 km/h.  `route_id` is always provided by the callers in the
dispatch loop; the stored copy is handled by the caller wrappers. -/
def calcular_rota_sintetica (geo : GeoFns)
    (origin_lat origin_lon dest_lat dest_lon : ℚ) (route_id : String) :
    DetailedRoute :=
  let num_waypoints : ℕ := 10
  let lat_step := (dest_lat - origin_lat) / ((num_waypoints : ℚ) - 1)
  let lon_step := (dest_lon - origin_lon) / ((num_waypoints : ℚ) - 1)
  let distance_km := geo.hdist origin_lat origin_lon dest_lat dest_lon
  let estimated_speed : ℚ := 25
  let total_time := distance_km / estimated_speed * 60
  let waypoints := (List.range num_waypoints).map (fun (i : ℕ) =>
    { latitude := origin_lat + lat_step * (i : ℚ),
      longitude := origin_lon + lon_step * (i : ℚ),
      sequence := i,
      estimated_time := total_time / ((num_waypoints : ℚ) - 1) * (i : ℚ),
      is_stop := i == 0 || i == num_waypoints - 1 : RouteWaypoint })
  { route_id := route_id,
    origin_id := "coord_" ++ toString origin_lat ++ "_" ++ toString origin_lon,
    destination_id := "coord_" ++ toString dest_lat ++ "_" ++ toString dest_lon,
    waypoints := waypoints,
    total_distance := distance_km,
    estimated_duration := total_time,
    optimized := false }

/-- `RedeService.calcular_rota_detalhada` in the modelled configuration
(`OSMNX_AVAILABLE = False`): `_garantir_rede_real_carregada` is a no-op and
the synthetic fallback is always taken; with a `route_id` the route is also
stored in `detailed_routes`. -/
def calcular_rota_detalhada (geo : GeoFns) (s : SimState)
    (origin_lat origin_lon dest_lat dest_lon : ℚ) (route_id : String) :
    SimState × DetailedRoute :=
  let rota := calcular_rota_sintetica geo origin_lat origin_lon dest_lat
    dest_lon route_id
  ({ s with detailed_routes := dset s.detailed_routes route_id rota }, rota)

/-- One step of `obter_rotas_otimizadas_para_veiculo`'s route-building loop:
the route from the current position to the next client, with `origin_id` and
`destination_id` overwritten after construction (the stored copy is the same
mutated object in Python, so the overwritten route is stored). -/
def rota_para_cliente (geo : GeoFns) (s : SimState) (route_id : String)
    (current : String × ℚ × ℚ) (cliente_id : String) (coords : ℚ × ℚ) :
    SimState × DetailedRoute :=
  let (s, rota) := calcular_rota_detalhada geo s current.2.1 current.2.2
    coords.1 coords.2 route_id
  let rota := { rota with origin_id := current.1, destination_id := cliente_id }
  ({ s with detailed_routes := dset s.detailed_routes route_id rota }, rota)

/-- The body of `obter_rotas_otimizadas_para_veiculo`'s sequential
route-building loop over the distance-sorted clients. -/
def obter_rotas_step (geo : GeoFns) (vehicle_id : String)
    (acc : SimState × List DetailedRoute × (String × ℚ × ℚ) × ℕ)
    (entry : String × (ℚ × ℚ) × ℚ) :
    SimState × List DetailedRoute × (String × ℚ × ℚ) × ℕ :=
  let (s, rotas, current, i) := acc
  let route_id := vehicle_id ++ "_route_" ++ toString (i + 1)
  let (s, rota) := rota_para_cliente geo s route_id current entry.1 entry.2.1
  (s, rotas ++ [rota], (entry.1, entry.2.1), i + 1)

/-- One insertion step of Python's stable `sorted(..., key=...)`: the new
element goes after every existing element whose key is `≤` its own. -/
def insertStable {α : Type} (key : α → ℚ) (x : α) : List α → List α
  | [] => [x]
  | y :: ys =>
    if key y ≤ key x then y :: insertStable key x ys else x :: y :: ys

/-- Python's stable `sorted(..., key=...)`: keys in nondecreasing order,
equal keys kept in input order (the unique stable sort). -/
def sortStable {α : Type} (key : α → ℚ) : List α → List α
  | [] => []
  | x :: xs => insertStable key x (sortStable key xs)

/-- `RedeService.obter_rotas_otimizadas_para_veiculo`.  The
`vehicle_movement_service` attribute consulted for already-served clients is
never set anywhere in the repository, so `clientes_atendidos` is always the
empty set and the filter keeps every requested client. -/
def obter_rotas_otimizadas_para_veiculo (geo : GeoFns) (redes_cache : Dict Rede)
    (s : SimState) (rede_id vehicle_id : String) (clientes_ids : List String) :
    SimState × List DetailedRoute :=
  match dget redes_cache rede_id with
  | none => (s, [])
  | some rede =>
    match findVeiculo rede vehicle_id with
    | none => (s, [])
    | some veiculo =>
      match findHub rede veiculo.hub_base with
      | none => (s, [])
      | some hub =>
        let hub_coords := (hub.latitude, hub.longitude)
        if clientes_ids.isEmpty then (s, [])
        else
          let clientes_coords := clientes_ids.filterMap (fun cid =>
            (obter_coordenadas_no rede cid).map (fun co =>
              (cid, co, geo.hdist hub_coords.1 hub_coords.2 co.1 co.2)))
          let sorted := sortStable (fun a => a.2.2) clientes_coords
          let (s, rotas, current, _) :=
            sorted.foldl (obter_rotas_step geo vehicle_id)
              (s, [], (veiculo.hub_base, hub_coords), 0)
          if sorted.isEmpty then (s, rotas)
          else
            let route_id := vehicle_id ++ "_return"
            let (s, rota_volta) := calcular_rota_detalhada geo s
              current.2.1 current.2.2 hub_coords.1 hub_coords.2 route_id
            let rota_volta := { rota_volta with
              origin_id := current.1, destination_id := veiculo.hub_base }
            let s := { s with
              detailed_routes := dset s.detailed_routes route_id rota_volta }
            (s, rotas ++ [rota_volta])

/-- Random draws consumed inside `simular_movimento_veiculo`. -/
structure SimEnv where
  single_speed : ℚ := 0
  base_speed : ℚ := 0
  deriving Repr, DecidableEq

/-- `RedeService.simular_movimento_veiculo`: clamp progress to [0, 100],
interpolate between the two bracketing waypoints, and store the resulting
position.  `int(position_index)` is a floor since the index is
nonnegative. -/
def simular_movimento_veiculo (geo : GeoFns) (s : SimState) (now : ℚ)
    (env : SimEnv) (vehicle_id route_id : String) (progress_percent : ℚ) :
    SimState × Option VehiclePosition :=
  match dget s.detailed_routes route_id with
  | none => (s, none)
  | some route =>
    if route.waypoints.isEmpty then (s, none)
    else
      let progress := max 0 (min 100 progress_percent)
      let total_waypoints := route.waypoints.length - 1
      if total_waypoints = 0 then
        let waypoint := route.waypoints.getD 0 default
        let speed := if progress < 100 then env.single_speed else 0
        let (s, p) := atualizar_posicao_veiculo s now vehicle_id
          waypoint.latitude waypoint.longitude speed 0
          (if progress < 100 then "moving" else "idle")
        (s, some p)
      else
        let position_index := progress / 100 * (total_waypoints : ℚ)
        let waypoint1_idx := position_index.floor.toNat
        let waypoint2_idx := min (waypoint1_idx + 1) total_waypoints
        let waypoint1 := route.waypoints.getD waypoint1_idx default
        let waypoint2 := route.waypoints.getD waypoint2_idx default
        let (lat, lon) :=
          if waypoint1_idx = waypoint2_idx then
            (waypoint1.latitude, waypoint1.longitude)
          else
            let t := position_index - (waypoint1_idx : ℚ)
            (waypoint1.latitude + t * (waypoint2.latitude - waypoint1.latitude),
             waypoint1.longitude + t * (waypoint2.longitude - waypoint1.longitude))
        let heading := geo.heading waypoint1.latitude waypoint1.longitude
          waypoint2.latitude waypoint2.longitude
        let estimated_speed := env.base_speed * (2 - route.traffic_factor)
        let estimated_speed := max 5 (min 60 estimated_speed)
        let status :=
          if 100 ≤ progress then "idle"
          else if waypoint2.is_stop &&
              decide (|position_index - (waypoint2_idx : ℚ)| < 1/10) then
            "delivering"
          else "moving"
        let (s, p) := atualizar_posicao_veiculo s now vehicle_id lat lon
          estimated_speed heading status
        (s, some p)

/-! ## Dispatch assignment engine (`vehicle_movement_service.py`) -/

/-- `self.update_interval = 1.0` (seconds). -/
def update_interval : ℚ := 1

/-- Initial per-client demand: `{c.id: c.demanda_media for c in rede.clientes}`. -/
def demanda_inicial (rede : Rede) : Dict ℤ :=
  rede.clientes.map (fun c => (c.id, c.demanda_media))

/-- `[c for c in rede.clientes if demanda_restante.get(c.id, 0) > 0 and c.id
not in clientes_em_atendimento]`. -/
def clientes_disponiveis (rede : Rede) (demanda_restante : Dict ℤ)
    (clientes_em_atendimento : List String) : List Cliente :=
  rede.clientes.filter (fun c =>
    decide (0 < dgetD demanda_restante c.id 0) &&
      !(clientes_em_atendimento.contains c.id))

/-- `min(c.prioridade.value for c in clientes)` over a nonempty list. -/
def minPrioridade : List Cliente → ℤ
  | [] => 0
  | c :: rest => rest.foldl (fun m c' => min m c'.prioridade) c.prioridade

/-- First-seen argmin: the scan `if dist < melhor_dist: melhor = cliente`
starting from `melhor = None, melhor_dist = inf` keeps the earliest element
among those of minimal key.  (Also the head of Python's stable
`sorted(..., key=f)`, which the initialisation loop uses.) -/
def argminFirst {α : Type} (f : α → ℚ) : List α → Option α
  | [] => none
  | x :: xs => some (xs.foldl (fun best y => if f y < f best then y else best) x)

/-- The highest-priority tier: `prioridade_min = min(...)` followed by
`[c for c in clientes_disponiveis if c.prioridade.value == prioridade_min]`. -/
def candidatos_prioridade (cs : List Cliente) : List Cliente :=
  cs.filter (fun c => c.prioridade == minPrioridade cs)

/-- `self._calculate_distance(hub.latitude, hub.longitude, cliente.latitude,
cliente.longitude)` as the selection key. -/
def dist_hub (geo : GeoFns) (hub : Hub) (c : Cliente) : ℚ :=
  geo.mdist hub.latitude hub.longitude c.latitude c.longitude

/-- The state `_assign_new_route` stores when route construction yields no
route, and the state a vehicle gets at initialisation when no client is
assigned to it. -/
def idle_state (vehicle_id : String) (now : ℚ) : VehicleMovementState :=
  { vehicle_id := vehicle_id, status := "idle", last_update := some now }

/-- `VehicleMovementService._assign_new_route`, with the call
`self.rede_service.obter_rotas_otimizadas_para_veiculo(rede_id, vehicle.id,
client_ids)` abstracted as `rotas_fn` (the route-construction collaborator;
`assign_new_route` below instantiates it with the embedded rede service).

Greedy matching: filter available clients, keep the highest-priority tier,
pick the one nearest (by `_calculate_distance`) to the vehicle's home hub,
mark it in-service, then request routes from the rede service.  The returned
`Bool` records whether the vehicle's entry in `vehicle_states` was replaced
by a fresh object (in Python a later `state.last_update = ...` on the old
object is then invisible).  `assign_speed` is the `random.uniform(10.0,
20.0)` draw.  Exceptions (`rede_id` missing from the cache) leave the state
unchanged: the whole body is wrapped in `try/except`. -/
def assign_new_route_with
    (rotas_fn : SimState → String → List String → SimState × List DetailedRoute)
    (geo : GeoFns) (redes_cache : Dict Rede) (rede_id : String)
    (now : ℚ) (assign_speed : ℚ) (s : SimState) (vehicle_id : String) :
    SimState × Bool :=
  match dget redes_cache rede_id with
  | none => (s, false)
  | some rede =>
    let demanda_restante :=
      match s.demanda_restante with
      | some d => d
      | none => demanda_inicial rede
    let clientes_em_atendimento := s.clientes_em_atendimento.getD []
    match findVeiculo rede vehicle_id with
    | none => (s, false)
    | some vehicle =>
      match findHub rede vehicle.hub_base with
      | none => (s, false)
      | some hub =>
        let clientes_disp :=
          clientes_disponiveis rede demanda_restante clientes_em_atendimento
        if clientes_disp.isEmpty then (s, false)
        else
          let candidatos := candidatos_prioridade clientes_disp
          match argminFirst (dist_hub geo hub) candidatos with
          | none => (s, false)
          | some melhor_cliente =>
            let em' := sadd clientes_em_atendimento melhor_cliente.id
            let s := { s with demanda_restante := some demanda_restante,
                              clientes_em_atendimento := some em' }
            let (s, routes) := rotas_fn s vehicle_id [melhor_cliente.id]
            match routes with
            | first_route :: _ =>
              let st : VehicleMovementState :=
                { vehicle_id := vehicle_id,
                  route_id := some first_route.route_id,
                  progress_percent := 0, status := "moving",
                  last_update := some now, movement_speed := assign_speed,
                  target_progress := 100,
                  current_client_id := some melhor_cliente.id }
              let states := dset s.vehicle_states vehicle_id st
              ({ s with vehicle_states := states }, true)
            | [] =>
              let states :=
                dset s.vehicle_states vehicle_id (idle_state vehicle_id now)
              ({ s with vehicle_states := states }, true)

/-- `VehicleMovementService._assign_new_route` with its actual collaborator,
`RedeService.obter_rotas_otimizadas_para_veiculo`. -/
def assign_new_route (geo : GeoFns) (redes_cache : Dict Rede)
    (rede_id : String) (now : ℚ) (assign_speed : ℚ) (s : SimState)
    (vehicle_id : String) : SimState × Bool :=
  assign_new_route_with
    (fun s vid cids =>
      obter_rotas_otimizadas_para_veiculo geo redes_cache s rede_id vid cids)
    geo redes_cache rede_id now assign_speed s vehicle_id

/-! ## Vehicle movement state machine (`vehicle_movement_service.py`) -/

/-- The random draws one `_update_vehicle_movement` call may consume. -/
structure UEnv where
  idle_chance : Bool := false
  assign_speed : ℚ := 10
  sim : SimEnv := {}
  speed_variation : ℚ := 1
  delivery_minutes : ℚ := 0
  return_speed : ℚ := 40
  return_move_speed : ℚ := 15
  return_pos_speed : ℚ := 35
  refuel_jitter_lat : ℚ := 0
  refuel_jitter_lon : ℚ := 0
  refuel_heading : ℚ := 0
  refuel_minutes : ℚ := 2
  direct_speed : ℚ := 30

/-- `time_delta = (current_time - state.last_update).total_seconds()` when
a last update exists, else `self.update_interval`. -/
def time_delta_of (st : VehicleMovementState) (now : ℚ) : ℚ :=
  match st.last_update with
  | some lu => now - lu
  | none => update_interval

/-- `state.last_update = current_time` at the end of
`_update_vehicle_movement`, applied to the object currently stored for the
vehicle (it is the object the update mutated in place whenever the entry was
not replaced). -/
def touch_last_update (s : SimState) (vehicle_id : String) (now : ℚ) :
    SimState :=
  match dget s.vehicle_states vehicle_id with
  | none => s
  | some st =>
    let states :=
      dset s.vehicle_states vehicle_id { st with last_update := some now }
    { s with vehicle_states := states }

/-- `VehicleMovementService._should_finish_simulation`. -/
def should_finish_simulation (redes_cache : Dict Rede) (rede_id : String)
    (s : SimState) : Bool :=
  let all_idle := s.vehicle_states.all (fun p => p.2.status == "idle")
  match dget redes_cache rede_id with
  | none => false
  | some rede =>
    let atendidos := dgetD s.clientes_atendidos rede_id []
    let em_atendimento :=
      s.vehicle_states.filterMap (fun p => p.2.current_client_id)
    let clientes_disp := rede.clientes.filter (fun c =>
      !(atendidos.contains c.id) && !(em_atendimento.contains c.id))
    all_idle && clientes_disp.isEmpty

/-- `VehicleMovementService._vehicle_arrived_at_hub`: snap the position to
the hub (with jitter), clear the return route, switch to `refueling` with a
1.5–2 minute pause, then check `_should_finish_simulation` and stop the
loop if it fires.  `st` is the vehicle's current entry (the object the
caller mutates in place). -/
def vehicle_arrived_at_hub (redes_cache : Dict Rede) (rede_id : String)
    (now : ℚ) (env : UEnv) (s : SimState) (vehicle_id : String)
    (st : VehicleMovementState) : SimState :=
  match dget redes_cache rede_id with
  | none => s
  | some rede =>
    match findVeiculo rede vehicle_id with
    | none => s
    | some vehicle =>
      match findHub rede vehicle.hub_base with
      | none => s
      | some hub_base =>
        let (s, _) := atualizar_posicao_veiculo s now vehicle_id
          (hub_base.latitude + env.refuel_jitter_lat)
          (hub_base.longitude + env.refuel_jitter_lon)
          0 env.refuel_heading "refueling"
        let s :=
          match st.route_id with
          | some rid =>
            if dmem s.detailed_routes rid then
              { s with detailed_routes := ddel s.detailed_routes rid }
            else s
          | none => s
        let st' :=
          { st with
            status := "refueling", route_id := none,
            progress_percent := 0, movement_speed := 0,
            pause_until := some (now + 60 * env.refuel_minutes) }
        let states := dset s.vehicle_states vehicle_id st'
        let s := { s with vehicle_states := states }
        if should_finish_simulation redes_cache rede_id s then
          { s with is_running := false }
        else s

/-- `VehicleMovementService._start_return_to_hub`.  `ret_route` is the
result of `_create_return_route`; in the modelled configuration the road
graph is `None`, so it is always `none`, and the fallback branch calls
`self._setup_direct_return(...)` — a method that does not exist anywhere in
the repository.  The resulting `AttributeError` is caught by the function's
own `except`, so the call leaves the state unchanged. -/
def start_return_to_hub (geo : GeoFns) (redes_cache : Dict Rede)
    (rede_id : String) (now : ℚ) (env : UEnv)
    (ret_route : Option DetailedRoute) (s : SimState) (vehicle_id : String)
    (st : VehicleMovementState) : SimState :=
  match dget redes_cache rede_id with
  | none => s
  | some rede =>
    match findVeiculo rede vehicle_id with
    | none => s
    | some vehicle =>
      match findHub rede vehicle.hub_base,
          obter_posicao_veiculo s vehicle_id with
      | some hub_base, some current_position =>
        let return_route_id := vehicle_id ++ "_return_" ++ toString now
        match ret_route with
        | some rr =>
          let routes := dset s.detailed_routes return_route_id rr
          let s := { s with detailed_routes := routes }
          let st' :=
            { st with
              status := "returning",
              route_id := some return_route_id, progress_percent := 0,
              current_client_id := none,
              movement_speed := env.return_move_speed, pause_until := none }
          let states := dset s.vehicle_states vehicle_id st'
          let s := { s with vehicle_states := states }
          (atualizar_posicao_veiculo s now vehicle_id
            current_position.latitude current_position.longitude
            env.return_pos_speed
            (geo.headingToHub current_position.latitude
              current_position.longitude hub_base.latitude
              hub_base.longitude)
            "returning").1
        | none => s
      | _, _ => s

/-- `VehicleMovementService._direct_return_to_hub` (linear interpolation
towards the hub when a returning vehicle has no route). -/
def direct_return_to_hub (geo : GeoFns) (redes_cache : Dict Rede)
    (rede_id : String) (now : ℚ) (env : UEnv) (s : SimState)
    (vehicle_id : String) (st : VehicleMovementState) (time_delta : ℚ) :
    SimState :=
  match dget redes_cache rede_id with
  | none => s
  | some rede =>
    match findVeiculo rede vehicle_id with
    | none => s
    | some vehicle =>
      match findHub rede vehicle.hub_base,
          obter_posicao_veiculo s vehicle_id with
      | some hub_base, some current_pos =>
        let progress_increment := st.movement_speed * (time_delta / 60)
        let new_progress := min 100 (st.progress_percent + progress_increment)
        let st :=
          if st.return_start_lat.isNone || st.return_start_lon.isNone then
            { st with
              return_start_lat := some current_pos.latitude,
              return_start_lon := some current_pos.longitude,
              hub_target_lat := some hub_base.latitude,
              hub_target_lon := some hub_base.longitude }
          else st
        let states := dset s.vehicle_states vehicle_id st
        let s := { s with vehicle_states := states }
        match st.return_start_lat, st.return_start_lon,
            st.hub_target_lat, st.hub_target_lon with
        | some rs_lat, some rs_lon, some ht_lat, some ht_lon =>
          let progress_ratio := new_progress / 100
          let new_lat := rs_lat + (ht_lat - rs_lat) * progress_ratio
          let new_lon := rs_lon + (ht_lon - rs_lon) * progress_ratio
          let heading := geo.headingToHub current_pos.latitude
            current_pos.longitude hub_base.latitude hub_base.longitude
          let s := (atualizar_posicao_veiculo s now vehicle_id new_lat
            new_lon env.direct_speed heading "returning").1
          let st := { st with progress_percent := new_progress }
          let s := { s with
            vehicle_states := dset s.vehicle_states vehicle_id st }
          if 100 ≤ new_progress then
            vehicle_arrived_at_hub redes_cache rede_id now env s vehicle_id st
          else s
        | _, _, _, _ => s
      | _, _ => s

/-- `VehicleMovementService._update_vehicle_movement` in the modelled
(no-road-graph) configuration.  `st` is the vehicle's entry in
`vehicle_states` at call time. -/
def update_vehicle_movement (geo : GeoFns) (redes_cache : Dict Rede)
    (rede_id : String) (now : ℚ) (env : UEnv) (s : SimState)
    (vehicle_id : String) (st : VehicleMovementState) : SimState :=
  -- `if state.pause_until and current_time < state.pause_until: return`
  if match st.pause_until with
     | some p => decide (now < p)
     | none => false then s
  else if st.status == "refueling" then
    -- the guard `not pause_until or now >= pause_until` is the negation of
    -- the frozen check above, hence true here; the source then assigns and
    -- returns without touching `last_update`
    (assign_new_route geo redes_cache rede_id now env.assign_speed s
      vehicle_id).1
  else
    let time_delta := time_delta_of st now
    if st.status == "idle" then
      if env.idle_chance then
        let (s', replaced) := assign_new_route geo redes_cache rede_id now
          env.assign_speed s vehicle_id
        -- the final `state.last_update = current_time` mutates the object
        -- passed in; when assignment replaced the dict entry that object is
        -- stale and the write is invisible
        if replaced then s' else touch_last_update s' vehicle_id now
      else touch_last_update s vehicle_id now
    else if st.status == "moving" && st.route_id.isSome then
      match st.route_id with
      | none => touch_last_update s vehicle_id now
      | some rid =>
        let progress_increment := st.movement_speed * (time_delta / 60)
        let new_progress :=
          min st.target_progress (st.progress_percent + progress_increment)
        let (s, new_position) := simular_movimento_veiculo geo s now env.sim
          vehicle_id rid new_progress
        match new_position with
        | none => touch_last_update s vehicle_id now
        | some pos =>
          let st := { st with progress_percent := new_progress }
          let s := { s with
            vehicle_states := dset s.vehicle_states vehicle_id st }
          -- realistic speed variation, clamped to [5, 70], written onto the
          -- stored position object
          let s :=
            if 0 < pos.speed then
              let varied_speed := pos.speed * env.speed_variation
              let jp := { pos with speed := max 5 (min 70 varied_speed) }
              let positions := dset s.vehicle_positions vehicle_id jp
              { s with vehicle_positions := positions }
            else s
          if st.target_progress ≤ new_progress then
            let st :=
              { st with
                status := "delivering",
                pause_until := some (now + 60 * env.delivery_minutes) }
            let states := dset s.vehicle_states vehicle_id st
            let s := { s with vehicle_states := states }
            let s := (atualizar_posicao_veiculo s now vehicle_id pos.latitude
              pos.longitude 0 pos.heading "delivering").1
            let s :=
              match st.current_client_id with
              | some c =>
                let atendidos :=
                  dset s.clientes_atendidos rede_id
                    (sadd (dgetD s.clientes_atendidos rede_id []) c)
                let s := { s with clientes_atendidos := atendidos }
                match s.clientes_em_atendimento with
                | some em =>
                  { s with clientes_em_atendimento := some (sdiscard em c) }
                | none => s
              | none => s
            touch_last_update s vehicle_id now
          else touch_last_update s vehicle_id now
    else if st.status == "delivering" then
      -- the guard `not pause_until or now >= pause_until` is again the
      -- negation of the frozen check, hence true on this path
      match s.demanda_restante, st.current_client_id with
      | some d, some c =>
        if dmem d c then
          let s := { s with
            demanda_restante := some (dset d c (dgetD d c 0 - 1)) }
          -- `rota_entrega` / `ponto_entrega` are computed only to be passed
          -- to `_start_return_to_hub`, which refetches the position itself
          let s := start_return_to_hub geo redes_cache rede_id now env none
            s vehicle_id st
          touch_last_update s vehicle_id now
        else s  -- KeyError on the decrement: caught per-vehicle, no update
      | _, _ =>
        let s := start_return_to_hub geo redes_cache rede_id now env none s
          vehicle_id st
        touch_last_update s vehicle_id now
    else if st.status == "returning" then
      match st.route_id with
      | some rid =>
        let progress_increment := st.movement_speed * (time_delta / 60)
        let new_progress := min 100 (st.progress_percent + progress_increment)
        let (s, new_position) := simular_movimento_veiculo geo s now env.sim
          vehicle_id rid new_progress
        match new_position with
        | none => touch_last_update s vehicle_id now
        | some pos =>
          let st := { st with progress_percent := new_progress }
          let states := dset s.vehicle_states vehicle_id st
          let s := { s with vehicle_states := states }
          let rp := { pos with speed := env.return_speed }
          let positions := dset s.vehicle_positions vehicle_id rp
          let s := { s with vehicle_positions := positions }
          let s :=
            if 100 ≤ new_progress then
              vehicle_arrived_at_hub redes_cache rede_id now env s
                vehicle_id st
            else s
          touch_last_update s vehicle_id now
      | none =>
        let s := direct_return_to_hub geo redes_cache rede_id now env s
          vehicle_id st time_delta
        touch_last_update s vehicle_id now
    else touch_last_update s vehicle_id now

/-- `VehicleMovementService._maybe_assign_new_routes`. -/
def maybe_assign_new_routes (geo : GeoFns) (redes_cache : Dict Rede)
    (rede_id : String) (now : ℚ) (assign_speeds : String → ℚ)
    (s : SimState) : SimState :=
  let idle_vehicles := s.vehicle_states.filterMap (fun p =>
    if p.2.status == "idle" &&
        (match p.2.pause_until with | none => true | some pu => decide (pu ≤ now))
    then some p.1 else none)
  idle_vehicles.foldl (fun acc vid =>
    (assign_new_route geo redes_cache rede_id now (assign_speeds vid) acc
      vid).1) s

/-- One iteration of `VehicleMovementService._movement_loop`: update every
vehicle present at the start of the tick (looking its entry up afresh, as
the in-place mutation semantics demands), then, with 10% probability
(`maybe_chance`), assign new routes to idle vehicles. -/
def movement_tick (geo : GeoFns) (redes_cache : Dict Rede) (rede_id : String)
    (now : ℚ) (envs : String → UEnv) (maybe_chance : Bool) (s : SimState) :
    SimState :=
  let ids := s.vehicle_states.map (·.1)
  let s := ids.foldl (fun acc vid =>
    match dget acc.vehicle_states vid with
    | none => acc
    | some st =>
      update_vehicle_movement geo redes_cache rede_id now (envs vid) acc
        vid st) s
  if maybe_chance then
    maybe_assign_new_routes geo redes_cache rede_id now
      (fun v => (envs v).assign_speed) s
  else s

/-- The random draws of `_initialize_vehicle_states`. -/
structure InitEnv where
  init_speed : String → ℚ
  assign_speed : String → ℚ

/-- `VehicleMovementService._initialize_vehicle_states`: greedy sequential
matching (each vehicle takes the nearest still-unassigned client, ignoring
priority), then one `_assign_new_route` per matched vehicle; afterwards the
`demanda_restante` and `clientes_em_atendimento` attributes are overwritten
with the values computed by the greedy phase (the head of Python's stable
`sorted(..., key=dist)` is `argminFirst dist`). -/
def init_vehicle_states (geo : GeoFns) (redes_cache : Dict Rede)
    (rede_id : String) (now : ℚ) (env : InitEnv) (s : SimState) : SimState :=
  let s := { s with vehicle_states := [] }
  match dget redes_cache rede_id with
  | none => s
  | some rede =>
    let demanda_restante := demanda_inicial rede
    let clientes_disp := rede.clientes.filter (fun c =>
      decide (0 < dgetD demanda_restante c.id 0))
    let greedy := rede.veiculos.foldl
      (fun (acc : Dict String × List String) v =>
        match findHub rede v.hub_base with
        | none => acc
        | some hub =>
          let cand := clientes_disp.filter (fun c => !(acc.2.contains c.id))
          match argminFirst (dist_hub geo hub) cand with
          | none => acc
          | some cliente_mais_proximo =>
            (dset acc.1 v.id cliente_mais_proximo.id,
             sadd acc.2 cliente_mais_proximo.id))
      ([], [])
    let atribuicoes := greedy.1
    let clientes_em_atendimento := greedy.2
    let s := rede.veiculos.foldl (fun acc v =>
      match dget atribuicoes v.id with
      | some cliente_id =>
        let st : VehicleMovementState :=
          { vehicle_id := v.id, route_id := none, progress_percent := 0,
            status := "moving", last_update := some now,
            movement_speed := env.init_speed v.id,
            current_client_id := some cliente_id }
        let acc := { acc with
          vehicle_states := dset acc.vehicle_states v.id st }
        (assign_new_route geo redes_cache rede_id now (env.assign_speed v.id)
          acc v.id).1
      | none =>
        let states := dset acc.vehicle_states v.id (idle_state v.id now)
        { acc with vehicle_states := states }) s
    { s with
      demanda_restante := some demanda_restante,
      clientes_em_atendimento := some clientes_em_atendimento }

/-- `VehicleMovementService.start_automatic_movement`. -/
def start_automatic_movement (geo : GeoFns) (redes_cache : Dict Rede)
    (rede_id : String) (now : ℚ) (env : InitEnv) (s : SimState) : SimState :=
  if s.is_running then s
  else init_vehicle_states geo redes_cache rede_id now env
    { s with is_running := true }

/-- `VehicleMovementService.stop_automatic_movement`. -/
def stop_automatic_movement (s : SimState) : SimState :=
  { s with is_running := false }

/-- The state of a freshly constructed `VehicleMovementService` together
with a fresh telemetry store. -/
def fresh_state : SimState := {}

/-- The states a simulation run over a fixed topology cache can reach: a
fresh service is started (`websocket.py` creates one per network before
calling `start_automatic_movement`), then the tick loop body runs while
`is_running` holds, with arbitrary wall-clock times and random draws. -/
inductive Reachable (geo : GeoFns) (redes_cache : Dict Rede)
    (rede_id : String) : SimState → Prop where
  | start (now : ℚ) (env : InitEnv) :
      Reachable geo redes_cache rede_id
        (start_automatic_movement geo redes_cache rede_id now env fresh_state)
  | tick {s : SimState} (now : ℚ) (envs : String → UEnv)
      (maybe_chance : Bool) :
      Reachable geo redes_cache rede_id s → s.is_running = true →
      Reachable geo redes_cache rede_id
        (movement_tick geo redes_cache rede_id now envs maybe_chance s)

/-! ## The distance primitives, over ℝ

The three Haversine implementations of the repository, embedded exactly:
`VehicleMovementService._calculate_distance`, the local `haversine` inside
`VehicleMovementService._create_return_route`, and
`RedeService._calcular_distancia_haversine`, plus the distance function the
specification describes. -/

noncomputable section

/-- `math.radians`. -/
def radians (x : ℝ) : ℝ := x * (Real.pi / 180)

/-- `math.atan2`. -/
def atan2 (y x : ℝ) : ℝ :=
  if 0 < x then Real.arctan (y / x)
  else if x < 0 ∧ 0 ≤ y then Real.arctan (y / x) + Real.pi
  else if x < 0 ∧ y < 0 then Real.arctan (y / x) - Real.pi
  else if x = 0 ∧ 0 < y then Real.pi / 2
  else if x = 0 ∧ y < 0 then -(Real.pi / 2)
  else 0

/-- `VehicleMovementService._calculate_distance`.  Note the source computes
`dlon = lat2_rad - lon1_rad`. -/
def calculate_distance (lat1 lon1 lat2 lon2 : ℝ) : ℝ :=
  let R : ℝ := 6371
  let lat1_rad := radians lat1
  let lon1_rad := radians lon1
  let lat2_rad := radians lat2
  let dlat := lat2_rad - lat1_rad
  let dlon := lat2_rad - lon1_rad
  let a := Real.sin (dlat / 2) ^ 2 +
    Real.cos lat1_rad * Real.cos lat2_rad * Real.sin (dlon / 2) ^ 2
  let c := 2 * Real.arcsin (Real.sqrt a)
  R * c

/-- The local `haversine` defined inside
`VehicleMovementService._create_return_route`.  It has the same slip:
`dlon = lat2 - lon1` (in radians). -/
def create_return_haversine (lat1 lon1 lat2 lon2 : ℝ) : ℝ :=
  let R : ℝ := 6371
  let lat1' := radians lat1
  let lon1' := radians lon1
  let lat2' := radians lat2
  let dlat := lat2' - lat1'
  let dlon := lat2' - lon1'
  let a := Real.sin (dlat / 2) ^ 2 +
    Real.cos lat1' * Real.cos lat2' * Real.sin (dlon / 2) ^ 2
  let c := 2 * Real.arcsin (Real.sqrt a)
  R * c

/-- `RedeService._calcular_distancia_haversine`. -/
def calcular_distancia_haversine (lat1 lon1 lat2 lon2 : ℝ) : ℝ :=
  let R : ℝ := 6371
  let lat1_rad := radians lat1
  let lat2_rad := radians lat2
  let delta_lat := radians (lat2 - lat1)
  let delta_lon := radians (lon2 - lon1)
  let a := Real.sin (delta_lat / 2) ^ 2 +
    Real.cos lat1_rad * Real.cos lat2_rad * Real.sin (delta_lon / 2) ^ 2
  let c := 2 * atan2 (Real.sqrt a) (Real.sqrt (1 - a))
  R * c

/-- The great-circle Haversine distance as the specification states it:
`R * 2 * asin(sqrt(sin²(Δlat/2) + cos(lat1)·cos(lat2)·sin²(Δlon/2)))` with
`Δlon = lon2 − lon1`, `R = 6371`, inputs in degrees. -/
def haversineSpec (lat1 lon1 lat2 lon2 : ℝ) : ℝ :=
  let R : ℝ := 6371
  let dlat := radians lat2 - radians lat1
  let dlon := radians lon2 - radians lon1
  R * (2 * Real.arcsin (Real.sqrt (Real.sin (dlat / 2) ^ 2 +
    Real.cos (radians lat1) * Real.cos (radians lat2) *
      Real.sin (dlon / 2) ^ 2)))

end

/-! ## The real-graph branch of `calcular_rota_detalhada`

The road-graph capability (`ox.nearest_nodes`, `nx.shortest_path`, per-edge
`length`/`travel_time`) is consumed, not reimplemented; it is modelled as an
abstract `RoadGraph`. -/

structure RoadGraph where
  /-- `G.nodes[n]['y']` (latitude) and `G.nodes[n]['x']` (longitude). -/
  coords : ℕ → ℚ × ℚ
  /-- `ox.nearest_nodes(G, lon, lat)`: arguments are longitude first. -/
  nearest_nodes : ℚ → ℚ → ℕ
  /-- `nx.shortest_path(G, a, b, weight='travel_time')`. -/
  shortest_path : ℕ → ℕ → List ℕ
  has_edge : ℕ → ℕ → Bool := fun _ _ => false
  /-- edge attribute `length` (metres). -/
  edge_length : ℕ → ℕ → ℚ := fun _ _ => 0
  /-- edge attribute `travel_time` (seconds). -/
  edge_travel_time : ℕ → ℕ → ℚ := fun _ _ => 0

/-- The body of the waypoint-extraction loop of the real-graph branch of
`calcular_rota_detalhada`. -/
def grafo_step (G : RoadGraph) (path : List ℕ)
    (acc : List RouteWaypoint × ℚ × ℚ × ℕ) (node : ℕ) :
    List RouteWaypoint × ℚ × ℚ × ℕ :=
  let (wps, total_distance, total_time, i) := acc
  let co := G.coords node
  let wp : RouteWaypoint :=
    { latitude := co.1, longitude := co.2, sequence := i,
      estimated_time := total_time,
      is_stop := i == 0 || i == path.length - 1 }
  let (td, tt) :=
    if i < path.length - 1 then
      let next := path.getD (i + 1) 0
      if G.has_edge node next then
        (total_distance + G.edge_length node next / 1000,
         total_time + G.edge_travel_time node next / 60)
      else (total_distance, total_time)
    else (total_distance, total_time)
  (wps ++ [wp], td, tt, i + 1)

/-- The real-graph branch of `RedeService.calcular_rota_detalhada`: both
endpoints are mapped to their nearest graph nodes, the travel-time shortest
path is converted to waypoints node by node, and edge lengths and travel
times are accumulated. -/
def calcular_rota_detalhada_grafo (G : RoadGraph)
    (origin_lat origin_lon dest_lat dest_lon : ℚ) (route_id : String) :
    DetailedRoute :=
  let origin_node := G.nearest_nodes origin_lon origin_lat
  let dest_node := G.nearest_nodes dest_lon dest_lat
  let path := G.shortest_path origin_node dest_node
  let folded := path.foldl (grafo_step G path) ([], 0, 0, 0)
  { route_id := route_id,
    origin_id := "coord_" ++ toString origin_lat ++ "_" ++ toString origin_lon,
    destination_id := "coord_" ++ toString dest_lat ++ "_" ++ toString dest_lon,
    waypoints := folded.1,
    total_distance := folded.2.1,
    estimated_duration := folded.2.2.1,
    optimized := true }

/-! ## Real-time broadcast manager (`websocket.py`) -/

/-- A subscriber connection: `connected` mirrors
`client_state == WebSocketState.CONNECTED`. -/
structure Conn where
  id : ℕ
  connected : Bool
  deriving Repr, DecidableEq

/-- The per-network state of the global `ConnectionManager`, with snapshots
of type `α` (the JSON payload, compared with `!=`). -/
structure ConnectionManager (α : Type) where
  active_connections : Dict (List Conn) := []
  last_data : Dict α := []
  broadcasting : Dict Bool := []
  deriving Repr, DecidableEq

/-- `ConnectionManager.broadcast_to_network`: send to every connection of the
network whose state is still CONNECTED, queue the rest — together with those
whose `send_text` raised (`send_fail`) — for removal, and clear the
network's data when no connection remains.  Returns the connections
`send_text` was called on. -/
def broadcast_to_network {α : Type} [DecidableEq α]
    (mgr : ConnectionManager α) (rede_id : String) (send_fail : Conn → Bool) :
    ConnectionManager α × List Conn :=
  match dget mgr.active_connections rede_id with
  | none => (mgr, [])
  | some conns =>
    let attempted := conns.filter (·.connected)
    let disconnected := conns.filter (fun c => !c.connected || send_fail c)
    let remaining := conns.filter (fun c => !(disconnected.contains c))
    if remaining.isEmpty then
      let broadcasting :=
        if dmem mgr.broadcasting rede_id then
          dset mgr.broadcasting rede_id false
        else mgr.broadcasting
      ({ mgr with
         active_connections := ddel mgr.active_connections rede_id,
         last_data := ddel mgr.last_data rede_id,
         broadcasting := broadcasting }, attempted)
    else
      ({ mgr with
         active_connections :=
           dset mgr.active_connections rede_id remaining }, attempted)

/-- One iteration of `broadcast_real_time_updates` for one network:
`current_data` is the snapshot `rede_service.obter_dados_websocket(rede_id)`
produces this iteration.  Returns the new manager and the connections the
snapshot was sent to. -/
def broadcast_iteration {α : Type} [DecidableEq α]
    (mgr : ConnectionManager α) (rede_id : String) (current_data : α)
    (send_fail : Conn → Bool) : ConnectionManager α × List Conn :=
  if !(dgetD mgr.broadcasting rede_id false) then (mgr, [])
  else
    match dget mgr.active_connections rede_id with
    | none =>
      ({ mgr with broadcasting := dset mgr.broadcasting rede_id false }, [])
    | some conns =>
      if conns.isEmpty then
        ({ mgr with broadcasting := dset mgr.broadcasting rede_id false }, [])
      else
        let changed :=
          match dget mgr.last_data rede_id with
          | none => true
          | some last => decide (current_data ≠ last)
        if changed then
          let mgr :=
            { mgr with last_data := dset mgr.last_data rede_id current_data }
          broadcast_to_network mgr rede_id send_fail
        else (mgr, [])

/-! ## Derived views of the state, and concrete instantiation data -/

/-- The in-service set as `_assign_new_route` reads it:
`getattr(self, 'clientes_em_atendimento', set())`. -/
def em_of (s : SimState) : List String :=
  s.clientes_em_atendimento.getD []

/-- The demand table as `_assign_new_route` reads it: the attribute when it
exists, else recomputed from the rede. -/
def demanda_of (rede : Rede) (s : SimState) : Dict ℤ :=
  s.demanda_restante.getD (demanda_inicial rede)

/-- The state at the moment `_assign_new_route` calls the route service:
the chosen client has just been reserved. -/
def reserved_state (rede : Rede) (s : SimState) (melhor : Cliente) :
    SimState :=
  { s with demanda_restante := some (demanda_of rede s),
           clientes_em_atendimento := some (sadd (em_of s) melhor.id) }

/-- Equality of every `SimState` component except the route store — what
`obter_rotas_otimizadas_para_veiculo` (which only writes
`detailed_routes`) preserves. -/
def NonRouteEq (s t : SimState) : Prop :=
  s.vehicle_states = t.vehicle_states ∧
  s.demanda_restante = t.demanda_restante ∧
  s.clientes_em_atendimento = t.clientes_em_atendimento ∧
  s.clientes_atendidos = t.clientes_atendidos ∧
  s.vehicle_positions = t.vehicle_positions ∧
  s.is_running = t.is_running

/-- A road graph with a single node, at coordinates `(1, 1)`:
`nearest_nodes` always answers that node, and the shortest path from the
node to itself is the singleton path. -/
def oneNodeGraph : RoadGraph :=
  { coords := fun _ => (1, 1),
    nearest_nodes := fun _ _ => 0,
    shortest_path := fun a _ => [a] }

/-- A two-node road graph used to instantiate `C8_route_endpoints`. -/
def twoNodeGraph : RoadGraph :=
  { coords := fun n => ((n : ℚ), (n : ℚ)),
    nearest_nodes := fun lon _ => if lon ≤ 1 then 0 else 1,
    shortest_path := fun a b => if a == b then [a] else [a, b] }

/-- Concrete data to instantiate `C10_positions_filter`. -/
def redeW : Rede :=
  { hubs := [], clientes := [], veiculos := [{ id := "v1", hub_base := "h1" }] }

def statesW : Dict VehicleMovementState := [("v1", { vehicle_id := "v1" })]

def posW : VehiclePosition :=
  { vehicle_id := "v1", latitude := 0, longitude := 0,
    timestamp := 0, speed := 0, heading := 0, status := "idle" }

def positionsW : Dict VehiclePosition := [("v1", posW)]

/-- Concrete dispatch scenario: one hub, one vehicle, two clients of
different priorities. -/
def hubW : Hub := { id := "h1", latitude := 0, longitude := 0 }

def vehW : Veiculo := { id := "v1", hub_base := "h1" }

def cliWa : Cliente :=
  { id := "c1", latitude := 1, longitude := 0, demanda_media := 1,
    prioridade := 3 }

def cliWb : Cliente :=
  { id := "c2", latitude := 2, longitude := 0, demanda_media := 1,
    prioridade := 1 }

def redeW2 : Rede :=
  { hubs := [hubW], clientes := [cliWa, cliWb], veiculos := [vehW] }

/-- A rede with a hub and a vehicle but no clients, and the vehicle parked
in the refueling state with its pause elapsed. -/
def redeW3 : Rede := { hubs := [hubW], clientes := [], veiculos := [vehW] }

def stRefuel : VehicleMovementState :=
  { vehicle_id := "v1", status := "refueling", pause_until := some 0,
    movement_speed := 0 }

def sRefuel : SimState :=
  { vehicle_states := [("v1", stRefuel)], demanda_restante := some [],
    clientes_em_atendimento := some [], is_running := true }

/-- A second vehicle based at the same hub. -/
def veh2W : Veiculo := { id := "v2", hub_base := "h1" }

/-- One hub, one vehicle, one client of demand 1: the smallest complete
simulation scenario. -/
def redeC1 : Rede := { hubs := [hubW], clientes := [cliWa], veiculos := [vehW] }

def cacheC1 : Dict Rede := [("r", redeC1)]

def envInitC1 : InitEnv :=
  { init_speed := fun _ => 20, assign_speed := fun _ => 20 }

/-- Deterministic tick draws: no idle assignment chance, instantaneous
delivery pause (`delivery_minutes = 0`), all other draws at defaults. -/
def envsC1 : String → UEnv := fun _ => {}

/-- The run: start at `t = 0`, then ticks at 600 s intervals (speed 20 %/min
covers the 100 % route target within one tick). -/
def s0C1 : SimState :=
  start_automatic_movement geoZero cacheC1 "r" 0 envInitC1 fresh_state

def s1C1 : SimState := movement_tick geoZero cacheC1 "r" 600 envsC1 false s0C1

def s2C1 : SimState := movement_tick geoZero cacheC1 "r" 1200 envsC1 false s1C1

def s3C1 : SimState := movement_tick geoZero cacheC1 "r" 1800 envsC1 false s2C1

/-- One hub, two vehicles, one client of demand 1. -/
def redeC3 : Rede :=
  { hubs := [hubW], clientes := [cliWa], veiculos := [vehW, veh2W] }

def cacheC3 : Dict Rede := [("r", redeC3)]

/-- Tick draws for the double-assignment run: on this tick `v2` wins the 5 %
idle-assignment draw. -/
def envsC3 : String → UEnv :=
  fun v => if v == "v2" then { idle_chance := true } else {}

def s0C3 : SimState :=
  start_automatic_movement geoZero cacheC3 "r" 0 envInitC1 fresh_state

def s1C3 : SimState := movement_tick geoZero cacheC3 "r" 600 envsC3 false s0C3

/-! ## Helper lemmas on dictionaries and sets -/

theorem dget_dset_self {α : Type} (m : Dict α) (k : String) (v : α) :
    dget (dset m k v) k = some v := by
  induction m with
  | nil => simp [dget, dset]
  | cons p rest ih =>
    obtain ⟨k', v'⟩ := p
    by_cases h : k' = k <;> simp [dget, dset, h, ih]

theorem dget_dset_ne {α : Type} (m : Dict α) (k k' : String) (v : α)
    (h : k ≠ k') : dget (dset m k v) k' = dget m k' := by
  induction m with
  | nil => simp [dget, dset, h]
  | cons p rest ih =>
    obtain ⟨k₀, v₀⟩ := p
    by_cases h₀ : k₀ = k
    · subst h₀; simp [dget, dset, h]
    · simp only [dset, if_neg h₀]
      by_cases h₁ : k₀ = k' <;> simp [dget, h₁, ih]

theorem mem_sadd (s : List String) (x y : String) :
    y ∈ sadd s x ↔ y ∈ s ∨ y = x := by
  unfold sadd
  by_cases h : x ∈ s
  · rw [if_pos (by simpa using h)]
    constructor
    · exact Or.inl
    · rintro (hy | rfl)
      · exact hy
      · exact h
  · rw [if_neg (by simpa using h)]
    simp [List.mem_append, or_comm]

theorem mem_sdiscard (s : List String) (x y : String) :
    y ∈ sdiscard s x ↔ y ∈ s ∧ y ≠ x := by
  unfold sdiscard
  simp [List.mem_filter]

/-! ## Frame lemmas: the route service writes only the route store -/

theorem nonRouteEq_refl (s : SimState) : NonRouteEq s s :=
  ⟨rfl, rfl, rfl, rfl, rfl, rfl⟩

theorem nonRouteEq_trans {s t u : SimState} (h₁ : NonRouteEq s t)
    (h₂ : NonRouteEq t u) : NonRouteEq s u := by
  obtain ⟨a₁, b₁, c₁, d₁, e₁, f₁⟩ := h₁
  obtain ⟨a₂, b₂, c₂, d₂, e₂, f₂⟩ := h₂
  exact ⟨a₁.trans a₂, b₁.trans b₂, c₁.trans c₂, d₁.trans d₂, e₁.trans e₂,
    f₁.trans f₂⟩

theorem obter_rotas_fold_frame (geo : GeoFns) (vid : String)
    (l : List (String × (ℚ × ℚ) × ℚ)) :
    ∀ acc : SimState × List DetailedRoute × (String × ℚ × ℚ) × ℕ,
      NonRouteEq acc.1 ((l.foldl (obter_rotas_step geo vid) acc).1) := by
  induction l with
  | nil => intro acc; exact nonRouteEq_refl _
  | cons e rest ih =>
    intro acc
    rw [List.foldl_cons]
    refine nonRouteEq_trans ?_ (ih _)
    obtain ⟨s, rotas, current, i⟩ := acc
    exact ⟨rfl, rfl, rfl, rfl, rfl, rfl⟩

theorem obter_rotas_frame (geo : GeoFns) (rc : Dict Rede) (s : SimState)
    (rid vid : String) (cids : List String) :
    NonRouteEq s
      (obter_rotas_otimizadas_para_veiculo geo rc s rid vid cids).1 := by
  unfold obter_rotas_otimizadas_para_veiculo
  cases dget rc rid with
  | none => exact nonRouteEq_refl _
  | some rede =>
    dsimp only
    cases findVeiculo rede vid with
    | none => exact nonRouteEq_refl _
    | some veiculo =>
      dsimp only
      cases findHub rede veiculo.hub_base with
      | none => exact nonRouteEq_refl _
      | some hub =>
        dsimp only
        split
        · exact nonRouteEq_refl _
        · rcases hF : (sortStable (fun a => a.2.2)
              (cids.filterMap (fun cid =>
              (obter_coordenadas_no rede cid).map (fun co =>
                (cid, co, geo.hdist hub.latitude hub.longitude co.1
                  co.2))))).foldl
              (obter_rotas_step geo vid)
              (s, [], (veiculo.hub_base, hub.latitude, hub.longitude), 0)
            with ⟨s', rotas', cur', k⟩
          have hfr := obter_rotas_fold_frame geo vid
            (sortStable (fun a => a.2.2)
              (cids.filterMap (fun cid =>
              (obter_coordenadas_no rede cid).map (fun co =>
                (cid, co, geo.hdist hub.latitude hub.longitude co.1
                  co.2)))))
            (s, [], (veiculo.hub_base, hub.latitude, hub.longitude), 0)
          rw [hF] at hfr
          rw [hF]
          dsimp only
          dsimp only at hfr
          split
          · exact hfr
          · exact nonRouteEq_trans hfr ⟨rfl, rfl, rfl, rfl, rfl, rfl⟩

/-! ## The greedy selection: argmin and minimum-priority lemmas -/

theorem argminFirst_foldl_spec {α : Type} (f : α → ℚ) (xs : List α) :
    ∀ x,
      (∀ d ∈ xs,
        f (xs.foldl (fun best y => if f y < f best then y else best) x) ≤
          f d) ∧
      f (xs.foldl (fun best y => if f y < f best then y else best) x) ≤ f x ∧
      (xs.foldl (fun best y => if f y < f best then y else best) x = x ∨
        ∃ pre post,
          xs = pre ++
            (xs.foldl (fun best y => if f y < f best then y else best) x) ::
              post ∧
          f (xs.foldl (fun best y => if f y < f best then y else best) x) <
            f x ∧
          ∀ d ∈ pre,
            f (xs.foldl (fun best y => if f y < f best then y else best) x) <
              f d) := by
  induction xs with
  | nil => intro x; exact ⟨by simp, le_refl _, Or.inl rfl⟩
  | cons y ys ih =>
    intro x
    rw [List.foldl_cons]
    by_cases hc : f y < f x
    · rw [if_pos hc]
      obtain ⟨ihmin, ihle, ihpos⟩ := ih y
      refine ⟨?_, le_trans ihle hc.le, Or.inr ?_⟩
      · intro d hd
        rcases List.mem_cons.mp hd with rfl | hd
        · exact ihle
        · exact ihmin d hd
      · rcases ihpos with heq | ⟨pre, post, heq, hlt, hpre⟩
        · exact ⟨[], ys, by rw [List.nil_append, heq], by rw [heq]; exact hc,
            by simp⟩
        · refine ⟨y :: pre, post, by rw [List.cons_append]; exact congrArg _ heq,
            lt_trans hlt hc, ?_⟩
          intro d hd
          rcases List.mem_cons.mp hd with rfl | hd
          · exact hlt
          · exact hpre d hd
    · rw [if_neg hc]
      push_neg at hc
      obtain ⟨ihmin, ihle, ihpos⟩ := ih x
      refine ⟨?_, ihle, ?_⟩
      · intro d hd
        rcases List.mem_cons.mp hd with rfl | hd
        · exact le_trans ihle hc
        · exact ihmin d hd
      · rcases ihpos with heq | ⟨pre, post, heq, hlt, hpre⟩
        · exact Or.inl heq
        · refine Or.inr ⟨y :: pre, post, by rw [List.cons_append]; exact congrArg _ heq,
            hlt, ?_⟩
          intro d hd
          rcases List.mem_cons.mp hd with rfl | hd
          · exact lt_of_lt_of_le hlt hc
          · exact hpre d hd

/-- The scan `if dist < melhor_dist: melhor = cliente` returns the
first-seen argmin: a minimiser all of whose predecessors in the list are
strictly farther. -/
theorem argminFirst_spec {α : Type} (f : α → ℚ) (x : α) (xs : List α) :
    ∃ c, argminFirst f (x :: xs) = some c ∧ c ∈ x :: xs ∧
      (∀ d ∈ x :: xs, f c ≤ f d) ∧
      ∃ pre post, x :: xs = pre ++ c :: post ∧ ∀ d ∈ pre, f c < f d := by
  obtain ⟨hmin, hle, hpos⟩ := argminFirst_foldl_spec f xs x
  set r := xs.foldl (fun best y => if f y < f best then y else best) x with hr
  refine ⟨r, rfl, ?_, ?_, ?_⟩
  · rcases hpos with heq | ⟨pre, post, heq, _, _⟩
    · rw [heq]; exact List.mem_cons_self _ _
    · refine List.mem_cons_of_mem _ ?_
      rw [heq]
      exact List.mem_append_right pre (List.mem_cons_self _ _)
  · intro d hd
    rcases List.mem_cons.mp hd with rfl | hd
    · exact hle
    · exact hmin d hd
  · rcases hpos with heq | ⟨pre, post, heq, hlt, hpre⟩
    · refine ⟨[], xs, ?_, by simp⟩
      rw [List.nil_append, heq]
    · refine ⟨x :: pre, post, by rw [List.cons_append]; exact congrArg _ heq, ?_⟩
      intro d hd
      rcases List.mem_cons.mp hd with rfl | hd
      · exact hlt
      · exact hpre d hd

theorem argminFirst_mem {α : Type} {f : α → ℚ} {l : List α} {c : α}
    (h : argminFirst f l = some c) : c ∈ l := by
  cases l with
  | nil => cases h
  | cons x xs =>
    obtain ⟨c', hc', hmem, _⟩ := argminFirst_spec f x xs
    rw [h] at hc'
    injection hc' with hc'
    exact hc' ▸ hmem

theorem minPrioridade_foldl_le (cs : List Cliente) :
    ∀ a : ℤ, cs.foldl (fun m c => min m c.prioridade) a ≤ a ∧
      ∀ c ∈ cs, cs.foldl (fun m c => min m c.prioridade) a ≤ c.prioridade := by
  induction cs with
  | nil => intro a; exact ⟨le_refl _, by simp⟩
  | cons c cs ih =>
    intro a
    rw [List.foldl_cons]
    obtain ⟨h₁, h₂⟩ := ih (min a c.prioridade)
    refine ⟨le_trans h₁ (min_le_left _ _), ?_⟩
    intro d hd
    rcases List.mem_cons.mp hd with rfl | hd
    · exact le_trans h₁ (min_le_right _ _)
    · exact h₂ d hd

theorem minPrioridade_foldl_attained (cs : List Cliente) :
    ∀ a : ℤ, cs.foldl (fun m c => min m c.prioridade) a = a ∨
      ∃ c ∈ cs, cs.foldl (fun m c => min m c.prioridade) a = c.prioridade := by
  induction cs with
  | nil => intro a; exact Or.inl rfl
  | cons c cs ih =>
    intro a
    rw [List.foldl_cons]
    rcases ih (min a c.prioridade) with heq | ⟨d, hd, heq⟩
    · rcases le_total a c.prioridade with h | h
      · rw [heq, min_eq_left h]; exact Or.inl rfl
      · rw [heq, min_eq_right h]
        exact Or.inr ⟨c, List.mem_cons_self _ _, rfl⟩
    · exact Or.inr ⟨d, List.mem_cons_of_mem _ hd, heq⟩

theorem minPrioridade_le {cs : List Cliente} {c : Cliente} (h : c ∈ cs) :
    minPrioridade cs ≤ c.prioridade := by
  cases cs with
  | nil => cases h
  | cons c₀ rest =>
    rcases List.mem_cons.mp h with rfl | h
    · exact (minPrioridade_foldl_le rest c.prioridade).1
    · exact (minPrioridade_foldl_le rest c₀.prioridade).2 c h

theorem minPrioridade_attained {cs : List Cliente} (h : cs ≠ []) :
    ∃ c ∈ cs, c.prioridade = minPrioridade cs := by
  cases cs with
  | nil => exact absurd rfl h
  | cons c₀ rest =>
    rcases minPrioridade_foldl_attained rest c₀.prioridade with heq |
        ⟨d, hd, heq⟩
    · exact ⟨c₀, List.mem_cons_self _ _, heq.symm⟩
    · exact ⟨d, List.mem_cons_of_mem _ hd, heq.symm⟩

theorem candidatos_ne_nil {cs : List Cliente} (h : cs ≠ []) :
    cs.filter (fun c => c.prioridade == minPrioridade cs) ≠ [] := by
  obtain ⟨c, hc, hp⟩ := minPrioridade_attained h
  exact List.ne_nil_of_mem (List.mem_filter.mpr ⟨hc, by simpa using hp⟩)

/-! ## Outcome characterisation of the assignment operation -/

/-- `_assign_new_route` with any route collaborator that, like
`obter_rotas_otimizadas_para_veiculo`, writes only the route store: either
nothing happened (`replaced = false`, state untouched), or a client
`melhor` from the available set was reserved (added to the in-service set)
and the vehicle's entry was replaced by a `moving` state towards it — or by
an idle state when the collaborator returned no route, the reservation
staying in place either way. -/
theorem assign_with_spec
    (rotas_fn : SimState → String → List String →
      SimState × List DetailedRoute)
    (geo : GeoFns) (rc : Dict Rede) (rid : String) (now sp : ℚ)
    (s : SimState) (vid : String)
    (hframe : ∀ s' v c, NonRouteEq s' ((rotas_fn s' v c).1)) :
    ((assign_new_route_with rotas_fn geo rc rid now sp s vid).2 = false ∧
      (assign_new_route_with rotas_fn geo rc rid now sp s vid).1 = s ∧
      (dget rc rid = none ∨
        ∃ rede, dget rc rid = some rede ∧
          (findVeiculo rede vid = none ∨
            ∃ vehicle, findVeiculo rede vid = some vehicle ∧
              (findHub rede vehicle.hub_base = none ∨
                clientes_disponiveis rede (demanda_of rede s)
                  (em_of s) = [])))) ∨
    (∃ rede vehicle hub melhor st',
      dget rc rid = some rede ∧
      findVeiculo rede vid = some vehicle ∧
      findHub rede vehicle.hub_base = some hub ∧
      melhor ∈ clientes_disponiveis rede (demanda_of rede s) (em_of s) ∧
      argminFirst (dist_hub geo hub)
        (candidatos_prioridade
          (clientes_disponiveis rede (demanda_of rede s) (em_of s))) =
        some melhor ∧
      (assign_new_route_with rotas_fn geo rc rid now sp s vid).2 = true ∧
      (assign_new_route_with rotas_fn geo rc rid now sp s
          vid).1.clientes_em_atendimento =
        some (sadd (em_of s) melhor.id) ∧
      (assign_new_route_with rotas_fn geo rc rid now sp s
          vid).1.demanda_restante = some (demanda_of rede s) ∧
      (assign_new_route_with rotas_fn geo rc rid now sp s
          vid).1.clientes_atendidos = s.clientes_atendidos ∧
      (assign_new_route_with rotas_fn geo rc rid now sp s
          vid).1.is_running = s.is_running ∧
      (assign_new_route_with rotas_fn geo rc rid now sp s
          vid).1.vehicle_states = dset s.vehicle_states vid st' ∧
      (((rotas_fn (reserved_state rede s melhor) vid [melhor.id]).2 ≠ [] ∧
          st'.status = "moving" ∧ st'.current_client_id = some melhor.id ∧
          st'.pause_until = none) ∨
        ((rotas_fn (reserved_state rede s melhor) vid [melhor.id]).2 = [] ∧
          st' = idle_state vid now))) := by
  unfold assign_new_route_with
  cases hr : dget rc rid with
  | none => exact Or.inl ⟨rfl, rfl, Or.inl rfl⟩
  | some rede =>
    dsimp only
    have hdem : (match s.demanda_restante with
        | some d => d
        | none => demanda_inicial rede) = demanda_of rede s := by
      unfold demanda_of
      cases s.demanda_restante <;> rfl
    cases hv : findVeiculo rede vid with
    | none => exact Or.inl ⟨rfl, rfl, Or.inr ⟨rede, rfl, Or.inl hv⟩⟩
    | some vehicle =>
      dsimp only
      cases hh : findHub rede vehicle.hub_base with
      | none =>
        exact Or.inl ⟨rfl, rfl, Or.inr ⟨rede, rfl,
          Or.inr ⟨vehicle, hv, Or.inl hh⟩⟩⟩
      | some hub =>
        dsimp only
        rw [hdem]
        split
        · rename_i hemp
          exact Or.inl ⟨rfl, rfl, Or.inr ⟨rede, rfl,
            Or.inr ⟨vehicle, hv, Or.inr (List.isEmpty_iff.mp hemp)⟩⟩⟩
        · split
          · rename_i hemp x hnone
            have hcand := @candidatos_ne_nil
              (clientes_disponiveis rede (demanda_of rede s)
                (s.clientes_em_atendimento.getD []))
              (fun h => hemp (by rw [h]; rfl))
            exact absurd hnone (by
              cases hcp : candidatos_prioridade (clientes_disponiveis rede
                  (demanda_of rede s) (s.clientes_em_atendimento.getD []))
                  with
              | nil => exact absurd hcp hcand
              | cons y ys => simp [argminFirst])
          · rename_i melhor hmin
            have hmem : melhor ∈ clientes_disponiveis rede
                (demanda_of rede s) (em_of s) :=
              (List.mem_filter.mp (argminFirst_mem hmin)).1
            rcases hrf : rotas_fn
                { s with
                  demanda_restante := some (demanda_of rede s),
                  clientes_em_atendimento :=
                    some (sadd (s.clientes_em_atendimento.getD [])
                      melhor.id) } vid [melhor.id] with ⟨s₂, routes⟩
            have hfr := hframe
              { s with
                demanda_restante := some (demanda_of rede s),
                clientes_em_atendimento :=
                  some (sadd (s.clientes_em_atendimento.getD [])
                    melhor.id) } vid [melhor.id]
            rw [hrf] at hfr
            obtain ⟨f₁, f₂, f₃, f₄, f₅, f₆⟩ := hfr
            have hrf' : rotas_fn (reserved_state rede s melhor) vid
                [melhor.id] = (s₂, routes) := hrf
            dsimp only at f₁ f₂ f₃ f₄ f₅ f₆ ⊢
            cases routes with
            | nil =>
              refine Or.inr ⟨rede, vehicle, hub, melhor, idle_state vid now,
                rfl, hv, hh, hmem, hmin, rfl, ?_, ?_, ?_, ?_, ?_,
                Or.inr ⟨by rw [hrf'], rfl⟩⟩
              · exact f₃.symm
              · exact f₂.symm
              · exact f₄.symm
              · exact f₆.symm
              · rw [← f₁]
            | cons r rest =>
              refine Or.inr ⟨rede, vehicle, hub, melhor,
                { vehicle_id := vid, route_id := some r.route_id,
                  progress_percent := 0, status := "moving",
                  last_update := some now, target_progress := 100,
                  movement_speed := sp, pause_until := none,
                  current_client_id := some melhor.id },
                rfl, hv, hh, hmem, hmin, rfl, ?_, ?_, ?_, ?_, ?_,
                Or.inl ⟨by rw [hrf']; simp, rfl, rfl, rfl⟩⟩
              · exact f₃.symm
              · exact f₂.symm
              · exact f₄.symm
              · exact f₆.symm
              · rw [← f₁]

theorem assign_frame (geo : GeoFns) (rc : Dict Rede) (rid : String) :
    ∀ (s' : SimState) (v : String) (c : List String),
      NonRouteEq s' ((fun s vid cids =>
        obter_rotas_otimizadas_para_veiculo geo rc s rid vid cids) s' v c).1 :=
  fun s' v c => obter_rotas_frame geo rc s' rid v c

/-! ## Claim C6: the greedy assignment selection -/

/-- **C6.**  `_assign_new_route`: if no client has remaining demand > 0 and
is out of service, nothing is selected and the state is returned untouched;
otherwise the selected client belongs to the highest-priority tier of the
available clients (minimal priority value), minimises the
`_calculate_distance` from the vehicle's home hub within that tier with
ties broken in favour of the earliest-listed client, and is exactly the
client reserved in the in-service set and recorded in the vehicle's new
state. -/
theorem C6_greedy_selection (geo : GeoFns) (rc : Dict Rede) (rid : String)
    (now sp : ℚ) (s : SimState) (vid : String) (rede : Rede)
    (vehicle : Veiculo) (hub : Hub)
    (hr : dget rc rid = some rede)
    (hv : findVeiculo rede vid = some vehicle)
    (hh : findHub rede vehicle.hub_base = some hub) :
    (clientes_disponiveis rede (demanda_of rede s) (em_of s) = [] →
      assign_new_route geo rc rid now sp s vid = (s, false)) ∧
    (clientes_disponiveis rede (demanda_of rede s) (em_of s) ≠ [] →
      ∃ melhor,
        melhor ∈ candidatos_prioridade
          (clientes_disponiveis rede (demanda_of rede s) (em_of s)) ∧
        melhor.prioridade = minPrioridade
          (clientes_disponiveis rede (demanda_of rede s) (em_of s)) ∧
        (∀ c ∈ candidatos_prioridade
            (clientes_disponiveis rede (demanda_of rede s) (em_of s)),
          dist_hub geo hub melhor ≤ dist_hub geo hub c) ∧
        (∃ pre post,
          candidatos_prioridade
              (clientes_disponiveis rede (demanda_of rede s) (em_of s)) =
            pre ++ melhor :: post ∧
          ∀ c ∈ pre, dist_hub geo hub melhor < dist_hub geo hub c) ∧
        (assign_new_route geo rc rid now sp s
            vid).1.clientes_em_atendimento =
          some (sadd (em_of s) melhor.id) ∧
        ∃ st',
          (assign_new_route geo rc rid now sp s vid).1.vehicle_states =
            dset s.vehicle_states vid st' ∧
          (st'.status = "moving" ∧ st'.current_client_id = some melhor.id ∨
            st' = idle_state vid now)) := by
  have spec := assign_with_spec
    (fun s vid cids =>
      obter_rotas_otimizadas_para_veiculo geo rc s rid vid cids)
    geo rc rid now sp s vid (assign_frame geo rc rid)
  constructor
  · intro hemp
    rcases spec with ⟨h2, h1, _⟩ | ⟨rede', vehicle', hub', melhor, st',
        hr', hv', hh', hmem, _⟩
    · rw [show assign_new_route geo rc rid now sp s vid =
        assign_new_route_with (fun s vid cids =>
          obter_rotas_otimizadas_para_veiculo geo rc s rid vid cids)
          geo rc rid now sp s vid from rfl]
      exact Prod.ext h1 h2
    · rw [hr] at hr'
      injection hr' with hr'
      subst hr'
      rw [hemp] at hmem
      cases hmem
  · intro hne
    rcases spec with ⟨_, _, hcause⟩ | ⟨rede', vehicle', hub', melhor, st',
        hr', hv', hh', hmem, hmin, _, hem, _, _, _, hvs, hst⟩
    · exfalso
      rcases hcause with h | ⟨rede', hr', h⟩
      · rw [hr] at h; cases h
      · rw [hr] at hr'
        injection hr' with hr'
        subst hr'
        rcases h with h | ⟨vehicle', hv', h⟩
        · rw [hv] at h; cases h
        · rw [hv] at hv'
          injection hv' with hv'
          subst hv'
          rcases h with h | h
          · rw [hh] at h; cases h
          · exact hne h
    · rw [hr] at hr'
      injection hr' with hr'
      subst hr'
      rw [hv] at hv'
      injection hv' with hv'
      subst hv'
      rw [hh] at hh'
      injection hh' with hh'
      subst hh'
      cases hcp : candidatos_prioridade
          (clientes_disponiveis rede (demanda_of rede s) (em_of s)) with
      | nil => exact absurd hcp (candidatos_ne_nil hne)
      | cons y ys =>
        obtain ⟨c, hcarg, hcmem, hcmin, pre, post, hdecomp, hpre⟩ :=
          argminFirst_spec (dist_hub geo hub) y ys
        rw [hcp] at hmin
        rw [hmin] at hcarg
        injection hcarg with hcarg
        subst hcarg
        have hcmem' : melhor ∈ candidatos_prioridade
            (clientes_disponiveis rede (demanda_of rede s) (em_of s)) := by
          rw [hcp]; exact hcmem
        refine ⟨melhor, ?_, ?_, ?_, ?_, hem, st', hvs, ?_⟩
        · exact hcmem
        · simpa using (List.mem_filter.mp hcmem').2
        · exact hcmin
        · exact ⟨pre, post, hdecomp, hpre⟩
        · rcases hst with ⟨_, h₁, h₂, _⟩ | ⟨_, h⟩
          · exact Or.inl ⟨h₁, h₂⟩
          · exact Or.inr h

theorem C6_greedy_selection_witness :
    (clientes_disponiveis redeW2 (demanda_of redeW2 fresh_state)
        (em_of fresh_state) = [] →
      assign_new_route geoZero [("n", redeW2)] "n" 0 10 fresh_state "v1" =
        (fresh_state, false)) ∧
    (clientes_disponiveis redeW2 (demanda_of redeW2 fresh_state)
        (em_of fresh_state) ≠ [] →
      ∃ melhor,
        melhor ∈ candidatos_prioridade
          (clientes_disponiveis redeW2 (demanda_of redeW2 fresh_state)
            (em_of fresh_state)) ∧
        melhor.prioridade = minPrioridade
          (clientes_disponiveis redeW2 (demanda_of redeW2 fresh_state)
            (em_of fresh_state)) ∧
        (∀ c ∈ candidatos_prioridade
            (clientes_disponiveis redeW2 (demanda_of redeW2 fresh_state)
              (em_of fresh_state)),
          dist_hub geoZero hubW melhor ≤ dist_hub geoZero hubW c) ∧
        (∃ pre post,
          candidatos_prioridade
              (clientes_disponiveis redeW2 (demanda_of redeW2 fresh_state)
                (em_of fresh_state)) =
            pre ++ melhor :: post ∧
          ∀ c ∈ pre,
            dist_hub geoZero hubW melhor < dist_hub geoZero hubW c) ∧
        (assign_new_route geoZero [("n", redeW2)] "n" 0 10 fresh_state
            "v1").1.clientes_em_atendimento =
          some (sadd (em_of fresh_state) melhor.id) ∧
        ∃ st',
          (assign_new_route geoZero [("n", redeW2)] "n" 0 10 fresh_state
              "v1").1.vehicle_states =
            dset fresh_state.vehicle_states "v1" st' ∧
          (st'.status = "moving" ∧ st'.current_client_id = some melhor.id ∨
            st' = idle_state "v1" 0)) :=
  C6_greedy_selection geoZero [("n", redeW2)] "n" 0 10 fresh_state "v1"
    redeW2 vehW hubW (by decide) (by decide) (by decide)

/-! ## Claim C2: no rollback of the tentative reservation -/

/-- **C2, counterexample.**  With a route collaborator that yields no route
(the claim's premise), the call marks the selected client in-service, sets
the vehicle idle — and leaves the client marked: the in-service set changes
from unset (empty) to containing the client, so the dispatch state does not
equal its pre-call value and the reservation is not rolled back. -/
theorem C2_reservation_leak_cex :
    (assign_new_route_with (fun s _ _ => (s, [])) geoZero [("n", redeW2)]
        "n" 0 10 fresh_state "v1").1.clientes_em_atendimento =
      some ["c2"] ∧
    fresh_state.clientes_em_atendimento = none ∧
    (dget (assign_new_route_with (fun s _ _ => (s, [])) geoZero
        [("n", redeW2)] "n" 0 10 fresh_state "v1").1.vehicle_states
        "v1").map (·.status) = some "idle" := by
  refine ⟨by decide, rfl, by decide⟩

/-- **C2, amended.**  If route construction yields no route after the
tentative reservation, the vehicle is set idle and no assignment is
produced — but the reservation is not rolled back: the selected client
remains in the in-service set after the call. -/
theorem C2_route_failure_no_rollback
    (rotas_fn : SimState → String → List String →
      SimState × List DetailedRoute)
    (geo : GeoFns) (rc : Dict Rede) (rid : String) (now sp : ℚ)
    (s : SimState) (vid : String) (rede : Rede) (vehicle : Veiculo)
    (hub : Hub)
    (hframe : ∀ s' v c, NonRouteEq s' ((rotas_fn s' v c).1))
    (hfail : ∀ s' v c, (rotas_fn s' v c).2 = [])
    (hr : dget rc rid = some rede)
    (hv : findVeiculo rede vid = some vehicle)
    (hh : findHub rede vehicle.hub_base = some hub)
    (hne : clientes_disponiveis rede (demanda_of rede s) (em_of s) ≠ []) :
    ∃ melhor,
      argminFirst (dist_hub geo hub)
        (candidatos_prioridade
          (clientes_disponiveis rede (demanda_of rede s) (em_of s))) =
        some melhor ∧
      (assign_new_route_with rotas_fn geo rc rid now sp s
          vid).1.clientes_em_atendimento =
        some (sadd (em_of s) melhor.id) ∧
      melhor.id ∈ sadd (em_of s) melhor.id ∧
      (assign_new_route_with rotas_fn geo rc rid now sp s
          vid).1.demanda_restante = some (demanda_of rede s) ∧
      (assign_new_route_with rotas_fn geo rc rid now sp s
          vid).1.vehicle_states =
        dset s.vehicle_states vid (idle_state vid now) := by
  rcases assign_with_spec rotas_fn geo rc rid now sp s vid hframe with
    ⟨_, _, hcause⟩ | ⟨rede', vehicle', hub', melhor, st', hr', hv', hh',
      hmem, hmin, _, hem, hdem, _, _, hvs, hst⟩
  · exfalso
    rcases hcause with h | ⟨rede', hr', h⟩
    · rw [hr] at h; cases h
    · rw [hr] at hr'
      injection hr' with hr'
      subst hr'
      rcases h with h | ⟨vehicle', hv', h⟩
      · rw [hv] at h; cases h
      · rw [hv] at hv'
        injection hv' with hv'
        subst hv'
        rcases h with h | h
        · rw [hh] at h; cases h
        · exact hne h
  · rw [hr] at hr'
    injection hr' with hr'
    subst hr'
    rw [hv] at hv'
    injection hv' with hv'
    subst hv'
    rw [hh] at hh'
    injection hh' with hh'
    subst hh'
    rcases hst with ⟨hne', _⟩ | ⟨_, hidle⟩
    · exact absurd (hfail _ _ _) hne'
    · subst hidle
      exact ⟨melhor, hmin, hem, (mem_sadd _ _ _).mpr (Or.inr rfl), hdem,
        hvs⟩

theorem C2_route_failure_no_rollback_witness :
    ∃ melhor,
      argminFirst (dist_hub geoZero hubW)
        (candidatos_prioridade
          (clientes_disponiveis redeW2 (demanda_of redeW2 fresh_state)
            (em_of fresh_state))) = some melhor ∧
      (assign_new_route_with (fun s _ _ => (s, [])) geoZero [("n", redeW2)]
          "n" 0 10 fresh_state "v1").1.clientes_em_atendimento =
        some (sadd (em_of fresh_state) melhor.id) ∧
      melhor.id ∈ sadd (em_of fresh_state) melhor.id ∧
      (assign_new_route_with (fun s _ _ => (s, [])) geoZero [("n", redeW2)]
          "n" 0 10 fresh_state "v1").1.demanda_restante =
        some (demanda_of redeW2 fresh_state) ∧
      (assign_new_route_with (fun s _ _ => (s, [])) geoZero [("n", redeW2)]
          "n" 0 10 fresh_state "v1").1.vehicle_states =
        dset fresh_state.vehicle_states "v1" (idle_state "v1" 0) :=
  C2_route_failure_no_rollback (fun s _ _ => (s, [])) geoZero
    [("n", redeW2)] "n" 0 10 fresh_state "v1" redeW2 vehW hubW
    (fun _ _ _ => nonRouteEq_refl _) (fun _ _ _ => rfl)
    (by decide) (by decide) (by decide) (by decide)

/-! ## Claim C5: the refueling-to-idle transition -/

/-- **C5, counterexample.**  A vehicle in `refueling` whose pause has
elapsed, in a network with no eligible client: the tick's assignment
attempt returns without touching any state, so after the tick the vehicle
is still `refueling` — not `idle` as claimed. -/
theorem C5_no_client_stays_refueling_cex :
    update_vehicle_movement geoZero [("n", redeW3)] "n" 100 {} sRefuel "v1"
      stRefuel = sRefuel ∧
    (dget sRefuel.vehicle_states "v1").map (·.status) = some "refueling" ∧
    "refueling" ≠ "idle" := by
  refine ⟨by decide, rfl, by decide⟩

/-- **C5, amended.**  For a `refueling` vehicle whose pause has elapsed,
the tick is exactly one `_assign_new_route` attempt: on success the vehicle
moves directly to `moving` (or to `idle` if route construction yielded no
route); if the attempt fails — no eligible client, or a failed lookup — the
whole state is unchanged and the vehicle remains `refueling` until the next
tick. -/
theorem C5_refueling_tick (geo : GeoFns) (rc : Dict Rede) (rid : String)
    (now : ℚ) (env : UEnv) (s : SimState) (vid : String)
    (st : VehicleMovementState)
    (hst : st.status = "refueling")
    (hp : ∀ p, st.pause_until = some p → p ≤ now) :
    update_vehicle_movement geo rc rid now env s vid st =
      (assign_new_route geo rc rid now env.assign_speed s vid).1 ∧
    ((assign_new_route geo rc rid now env.assign_speed s vid).2 = false →
      update_vehicle_movement geo rc rid now env s vid st = s) ∧
    ((assign_new_route geo rc rid now env.assign_speed s vid).2 = true →
      ∃ st',
        (update_vehicle_movement geo rc rid now env s vid
            st).vehicle_states = dset s.vehicle_states vid st' ∧
        (st'.status = "moving" ∧ st'.current_client_id.isSome = true ∨
          st' = idle_state vid now)) := by
  have hfrozen : (match st.pause_until with
      | some p => decide (now < p)
      | none => false) = false := by
    cases hpu : st.pause_until with
    | none => rfl
    | some p => simpa using not_lt.mpr (hp p hpu)
  have hupd : update_vehicle_movement geo rc rid now env s vid st =
      (assign_new_route geo rc rid now env.assign_speed s vid).1 := by
    unfold update_vehicle_movement
    rw [hfrozen]
    simp only [Bool.false_eq_true, if_false]
    rw [show (st.status == "refueling") = true by simp [hst]]
    simp only [if_true]
  refine ⟨hupd, ?_, ?_⟩
  · intro hfalse
    rcases assign_with_spec _ geo rc rid now env.assign_speed s vid
        (assign_frame geo rc rid) with ⟨_, heq, _⟩ |
      ⟨_, _, _, _, _, _, _, _, _, _, htrue, _⟩
    · rw [hupd]; exact heq
    · have htrue' : (assign_new_route geo rc rid now env.assign_speed s
          vid).2 = true := htrue
      rw [htrue'] at hfalse
      cases hfalse
  · intro htrue
    rcases assign_with_spec _ geo rc rid now env.assign_speed s vid
        (assign_frame geo rc rid) with ⟨hfalse, _, _⟩ |
      ⟨_, _, _, melhor, st', _, _, _, _, _, _, _, _, _, _, hvs, hcase⟩
    · have hfalse' : (assign_new_route geo rc rid now env.assign_speed s
          vid).2 = false := hfalse
      rw [hfalse'] at htrue
      cases htrue
    · have hvs' : (assign_new_route geo rc rid now env.assign_speed s
          vid).1.vehicle_states = dset s.vehicle_states vid st' := hvs
      refine ⟨st', by rw [hupd]; exact hvs', ?_⟩
      rcases hcase with ⟨_, h₁, h₂, _⟩ | ⟨_, h⟩
      · exact Or.inl ⟨h₁, by rw [h₂]; rfl⟩
      · exact Or.inr h

theorem C5_refueling_tick_witness :
    update_vehicle_movement geoZero [("n", redeW3)] "n" 100 {} sRefuel "v1"
      stRefuel =
      (assign_new_route geoZero [("n", redeW3)] "n" 100
        ({} : UEnv).assign_speed sRefuel "v1").1 ∧
    ((assign_new_route geoZero [("n", redeW3)] "n" 100
        ({} : UEnv).assign_speed sRefuel "v1").2 = false →
      update_vehicle_movement geoZero [("n", redeW3)] "n" 100 {} sRefuel
        "v1" stRefuel = sRefuel) ∧
    ((assign_new_route geoZero [("n", redeW3)] "n" 100
        ({} : UEnv).assign_speed sRefuel "v1").2 = true →
      ∃ st',
        (update_vehicle_movement geoZero [("n", redeW3)] "n" 100 {} sRefuel
            "v1" stRefuel).vehicle_states =
          dset sRefuel.vehicle_states "v1" st' ∧
        (st'.status = "moving" ∧ st'.current_client_id.isSome = true ∨
          st' = idle_state "v1" 100)) :=
  C5_refueling_tick geoZero [("n", redeW3)] "n" 100 {} sRefuel "v1"
    stRefuel (by decide)
    (fun p hp => by
      injection hp with h
      rw [← h]
      norm_num)

/-! ## Claim C4: the termination check can never fire -/

theorem dall_dset_false {α : Type} (p : String × α → Bool) (m : Dict α)
    (k : String) (v : α) (h : p (k, v) = false) :
    ((dset m k v).all p) = false := by
  induction m with
  | nil => simp [dset, h]
  | cons e rest ih =>
    obtain ⟨k', v'⟩ := e
    by_cases hk : k' = k
    · subst hk; simp [dset, h]
    · simp [dset, hk, ih]

/-- `_should_finish_simulation` is false whenever some vehicle's entry—
here the one just written—does not have status `"idle"`. -/
theorem should_finish_false_of_dset (rc : Dict Rede) (rid : String)
    (t : SimState) (m : Dict VehicleMovementState) (vid : String)
    (st' : VehicleMovementState)
    (hvs : t.vehicle_states = dset m vid st')
    (hs : (st'.status == "idle") = false) :
    should_finish_simulation rc rid t = false := by
  unfold should_finish_simulation
  rw [hvs, dall_dset_false _ _ _ _ hs]
  cases dget rc rid with
  | none => rfl
  | some rede => dsimp only; rw [Bool.false_and]

theorem touch_is_running (s : SimState) (vid : String) (now : ℚ) :
    (touch_last_update s vid now).is_running = s.is_running := by
  unfold touch_last_update
  cases dget s.vehicle_states vid <;> rfl

theorem simular_is_running (geo : GeoFns) (s : SimState) (now : ℚ)
    (env : SimEnv) (vid rid : String) (p : ℚ) :
    (simular_movimento_veiculo geo s now env vid rid p).1.is_running =
      s.is_running := by
  unfold simular_movimento_veiculo atualizar_posicao_veiculo
  cases dget s.detailed_routes rid with
  | none => rfl
  | some route =>
    dsimp only
    split
    · rfl
    · split <;> rfl

/-- `_vehicle_arrived_at_hub` never stops the simulation: the termination
check runs immediately after the arriving vehicle's status has been set to
`"refueling"`, so its all-vehicles-idle condition is always false at the
only place it is evaluated, and `is_running` is untouched. -/
theorem arrival_never_stops (rc : Dict Rede) (rid : String) (now : ℚ)
    (env : UEnv) (s : SimState) (vid : String)
    (st : VehicleMovementState) :
    (vehicle_arrived_at_hub rc rid now env s vid st).is_running =
      s.is_running := by
  unfold vehicle_arrived_at_hub
  cases dget rc rid with
  | none => rfl
  | some rede =>
    dsimp only
    cases findVeiculo rede vid with
    | none => rfl
    | some vehicle =>
      dsimp only
      cases findHub rede vehicle.hub_base with
      | none => rfl
      | some hub_base =>
        dsimp only [atualizar_posicao_veiculo]
        cases st.route_id with
        | none =>
          dsimp only
          rw [should_finish_false_of_dset rc rid _ _ vid _ rfl (by rfl)]
          rfl
        | some old_rid =>
          dsimp only
          split
          · rw [should_finish_false_of_dset rc rid _ _ vid _ rfl (by rfl)]
            rfl
          · rw [should_finish_false_of_dset rc rid _ _ vid _ rfl (by rfl)]
            rfl

theorem assign_is_running (geo : GeoFns) (rc : Dict Rede) (rid : String)
    (now sp : ℚ) (s : SimState) (vid : String) :
    (assign_new_route geo rc rid now sp s vid).1.is_running =
      s.is_running := by
  rcases assign_with_spec _ geo rc rid now sp s vid
      (assign_frame geo rc rid) with ⟨_, heq, _⟩ |
    ⟨_, _, _, _, _, _, _, _, _, _, _, _, _, _, hrun, _, _⟩
  · exact congrArg SimState.is_running heq
  · exact hrun

theorem start_return_is_running (geo : GeoFns) (rc : Dict Rede)
    (rid : String) (now : ℚ) (env : UEnv) (ret : Option DetailedRoute)
    (s : SimState) (vid : String) (st : VehicleMovementState) :
    (start_return_to_hub geo rc rid now env ret s vid st).is_running =
      s.is_running := by
  unfold start_return_to_hub atualizar_posicao_veiculo
  cases dget rc rid with
  | none => rfl
  | some rede =>
    dsimp only
    cases findVeiculo rede vid with
    | none => rfl
    | some vehicle =>
      dsimp only
      cases findHub rede vehicle.hub_base with
      | none => cases obter_posicao_veiculo s vid <;> rfl
      | some hub_base =>
        cases obter_posicao_veiculo s vid with
        | none => rfl
        | some pos =>
          dsimp only
          cases ret <;> rfl

theorem direct_return_is_running (geo : GeoFns) (rc : Dict Rede)
    (rid : String) (now : ℚ) (env : UEnv) (s : SimState) (vid : String)
    (st : VehicleMovementState) (td : ℚ) :
    (direct_return_to_hub geo rc rid now env s vid st td).is_running =
      s.is_running := by
  unfold direct_return_to_hub atualizar_posicao_veiculo
  cases dget rc rid with
  | none => rfl
  | some rede =>
    dsimp only
    cases findVeiculo rede vid with
    | none => rfl
    | some vehicle =>
      dsimp only
      cases findHub rede vehicle.hub_base with
      | none => cases obter_posicao_veiculo s vid <;> rfl
      | some hub_base =>
        cases obter_posicao_veiculo s vid with
        | none => rfl
        | some pos =>
          dsimp only
          split
          · split
            · rw [arrival_never_stops]
            · rfl
          · rfl

theorem update_is_running (geo : GeoFns) (rc : Dict Rede) (rid : String)
    (now : ℚ) (env : UEnv) (s : SimState) (vid : String)
    (st : VehicleMovementState) :
    (update_vehicle_movement geo rc rid now env s vid st).is_running =
      s.is_running := by
  unfold update_vehicle_movement
  split
  · rfl
  split
  · exact assign_is_running geo rc rid now env.assign_speed s vid
  split
  · split
    · rcases h : assign_new_route geo rc rid now env.assign_speed s vid
        with ⟨s', rep⟩
      have hrun := assign_is_running geo rc rid now env.assign_speed s vid
      rw [h] at hrun
      dsimp only at hrun ⊢
      cases rep
      · rw [if_neg (by simp), touch_is_running]; exact hrun
      · rw [if_pos rfl]; exact hrun
    · rw [touch_is_running]
  split
  · cases st.route_id with
    | none => rw [touch_is_running]
    | some r =>
      dsimp only
      rcases hsim : simular_movimento_veiculo geo s now env.sim vid r
          (min st.target_progress
            (st.progress_percent +
              st.movement_speed * (time_delta_of st now / 60)))
          with ⟨s', posO⟩
      have hrun := simular_is_running geo s now env.sim vid r
        (min st.target_progress
          (st.progress_percent +
            st.movement_speed * (time_delta_of st now / 60)))
      rw [hsim] at hrun
      dsimp only
      cases posO with
      | none => rw [touch_is_running]; exact hrun
      | some pos =>
        dsimp only
        repeat' split
        all_goals rw [touch_is_running]; exact hrun
  split
  · repeat' split
    all_goals
      first
        | rfl
        | (rw [touch_is_running, start_return_is_running])
  split
  · cases st.route_id with
    | none => rw [touch_is_running, direct_return_is_running]
    | some r =>
      dsimp only
      rcases hsim : simular_movimento_veiculo geo s now env.sim vid r
          (min 100
            (st.progress_percent +
              st.movement_speed * (time_delta_of st now / 60)))
          with ⟨s', posO⟩
      have hrun := simular_is_running geo s now env.sim vid r
        (min 100
          (st.progress_percent +
            st.movement_speed * (time_delta_of st now / 60)))
      rw [hsim] at hrun
      dsimp only
      cases posO with
      | none => rw [touch_is_running]; exact hrun
      | some pos =>
        dsimp only
        rw [touch_is_running]
        split
        · rw [arrival_never_stops]; exact hrun
        · exact hrun
  · rw [touch_is_running]

theorem assign_fold_is_running (geo : GeoFns) (rc : Dict Rede) (rid : String)
    (now : ℚ) (asp : String → ℚ) (l : List String) :
    ∀ acc : SimState,
      (l.foldl (fun acc vid =>
        (assign_new_route geo rc rid now (asp vid) acc vid).1) acc).is_running
        = acc.is_running := by
  induction l with
  | nil => intro acc; rfl
  | cons v rest ih =>
    intro acc
    rw [List.foldl_cons, ih, assign_is_running]

theorem maybe_assign_is_running (geo : GeoFns) (rc : Dict Rede) (rid : String)
    (now : ℚ) (asp : String → ℚ) (s : SimState) :
    (maybe_assign_new_routes geo rc rid now asp s).is_running =
      s.is_running := by
  unfold maybe_assign_new_routes
  exact assign_fold_is_running geo rc rid now asp _ s

theorem update_fold_is_running (geo : GeoFns) (rc : Dict Rede) (rid : String)
    (now : ℚ) (envs : String → UEnv) (l : List String) :
    ∀ acc : SimState,
      (l.foldl (fun acc vid =>
        match dget acc.vehicle_states vid with
        | none => acc
        | some st =>
          update_vehicle_movement geo rc rid now (envs vid) acc vid st)
        acc).is_running = acc.is_running := by
  induction l with
  | nil => intro acc; rfl
  | cons v rest ih =>
    intro acc
    rw [List.foldl_cons, ih]
    cases dget acc.vehicle_states v with
    | none => rfl
    | some st => exact update_is_running geo rc rid now (envs v) acc v st

/-- **C4.** One full movement-loop iteration can never clear the running
flag: `is_running` after `movement_tick` always equals `is_running` before
it, for every network, clock value, random environment and state.  The
spec's self-termination ("if every vehicle is idle AND no client has
demand remaining ... the tick loop stops itself") is therefore
unreachable: the only call site of `_should_finish_simulation` is inside
`_vehicle_arrived_at_hub`, which sets the arriving vehicle's status to
`"refueling"` *before* the check, so the all-vehicles-idle conjunct is
false at the only moment it is ever evaluated. -/
theorem C4_tick_never_stops (geo : GeoFns) (rc : Dict Rede) (rid : String)
    (now : ℚ) (envs : String → UEnv) (mc : Bool) (s : SimState) :
    (movement_tick geo rc rid now envs mc s).is_running = s.is_running := by
  unfold movement_tick
  cases mc with
  | false =>
    rw [if_neg (by simp)]
    exact update_fold_is_running geo rc rid now envs _ s
  | true =>
    rw [if_pos rfl, maybe_assign_is_running]
    exact update_fold_is_running geo rc rid now envs _ s

/-! ## Claims C1 and C3: the dispatch invariants, refuted on closed runs

The trace states are evaluated by `decide`; the Batteries rational
operations are `@[irreducible]` by default, which only hides them from the
elaborator's reduction, so they are reopened locally. -/

section

attribute [local semireducible] Rat.mul Rat.inv Rat.add Rat.sub
  Rat.ofScientific

/-- **C1.** The demand invariant fails: on a reachable run (one hub, one
vehicle, one client of demand 1; start at `t = 0`, ticks at `t = 600, 1200,
1800`), the client's remaining demand is decremented on *every* tick the
vehicle spends in the `delivering` status — not exactly once per completed
delivery leg — and reaches `-1` while the vehicle is still `delivering`.
The `delivering → returning` transition the spec ties the decrement to
never happens: `_start_return_to_hub`'s fallback branch calls the
nonexistent `_setup_direct_return`, the `AttributeError` is swallowed, the
status stays `delivering`, and the decrement at the top of the branch
re-fires on each subsequent tick. -/
theorem C1_demand_negative_code_bug :
    Reachable geoZero cacheC1 "r" s3C1 ∧
    (dget s3C1.vehicle_states "v1").map VehicleMovementState.status =
      some "delivering" ∧
    s3C1.demanda_restante.map (fun d => dget d "c1") = some (some (-1)) ∧
    dgetD s3C1.clientes_atendidos "r" [] = ["c1"] := by
  refine ⟨?_, by decide, by decide, by decide⟩
  exact Reachable.tick 1800 envsC1 false
    (Reachable.tick 1200 envsC1 false
      (Reachable.tick 600 envsC1 false
        (Reachable.start 0 envInitC1) (by decide))
      (by decide))
    (by decide)

/-- **C3.** The mutual-exclusion invariant fails: on a reachable run (one
hub, two vehicles, one client of demand 1), after the tick at `t = 600` the
vehicle `v1` is `delivering` to client `c1` while `v2` is simultaneously
`moving` towards the same `c1`.  The in-service flag meant to enforce the
invariant is discarded the moment `v1` *arrives* at the client (not when
the delivery completes), and the demand is still positive at that point, so
the idle `v2`, drawing the 5 % assignment chance in the same tick, reserves
the very same client. -/
theorem C3_double_assignment_code_bug :
    Reachable geoZero cacheC3 "r" s1C3 ∧
    (dget s1C3.vehicle_states "v1").map
        (fun st => (st.status, st.current_client_id)) =
      some ("delivering", some "c1") ∧
    (dget s1C3.vehicle_states "v2").map
        (fun st => (st.status, st.current_client_id)) =
      some ("moving", some "c1") := by
  refine ⟨?_, by decide, by decide⟩
  exact Reachable.tick 600 envsC3 false (Reachable.start 0 envInitC1)
    (by decide)

end

/-! ## Claim C7: the distance primitives -/

theorem sqrt_sin_sq_pi_div_four :
    Real.sqrt (Real.sin (Real.pi / 4) ^ 2) = Real.sin (Real.pi / 4) :=
  Real.sqrt_sq (Real.sin_nonneg_of_nonneg_of_le_pi
    (by positivity) (by linarith [Real.pi_pos]))

theorem arcsin_sin_pi_div_four :
    Real.arcsin (Real.sin (Real.pi / 4)) = Real.pi / 4 :=
  Real.arcsin_sin (by linarith [Real.pi_pos]) (by linarith [Real.pi_pos])

/-- **C7.** The spec says every distance implementation computes the
great-circle Haversine distance with `Δlon = lon2 − lon1`.  At the points
`(0°, 0°)` and `(0°, 90°)` the spec formula (and the correct
`RedeService._calcular_distancia_haversine`) gives `6371·π/2 ≈ 10007 km`,
but `VehicleMovementService._calculate_distance` and the `haversine` inside
`_create_return_route` give `0`: both compute `dlon = lat2 − lon1` instead
of `lon2 − lon1`, contradicting their own docstrings. -/
theorem C7_distance_formula_code_bug :
    calculate_distance 0 0 0 90 = 0 ∧
    create_return_haversine 0 0 0 90 = 0 ∧
    haversineSpec 0 0 0 90 = 6371 * (Real.pi / 2) ∧
    calcular_distancia_haversine 0 0 0 90 = 6371 * (Real.pi / 2) ∧
    (0 : ℝ) ≠ 6371 * (Real.pi / 2) := by
  have h4 : (90 : ℝ) * (Real.pi / 180) / 2 = Real.pi / 4 := by ring
  refine ⟨?_, ?_, ?_, ?_, ?_⟩
  · simp [calculate_distance, radians]
  · simp [create_return_haversine, radians]
  · show 6371 * (2 * Real.arcsin (Real.sqrt
        (Real.sin ((radians 0 - radians 0) / 2) ^ 2 +
          Real.cos (radians 0) * Real.cos (radians 0) *
            Real.sin ((radians 90 - radians 0) / 2) ^ 2))) =
      6371 * (Real.pi / 2)
    rw [show radians 0 = 0 by simp [radians],
      show radians 90 = 90 * (Real.pi / 180) by simp [radians]]
    rw [show ((90 : ℝ) * (Real.pi / 180) - 0) / 2 = Real.pi / 4 by ring]
    simp only [sub_zero, zero_div, Real.sin_zero, Real.cos_zero, one_mul,
      ne_eq, OfNat.ofNat_ne_zero, not_false_eq_true, zero_pow, zero_add]
    rw [sqrt_sin_sq_pi_div_four, arcsin_sin_pi_div_four]
    ring
  · show 6371 * (2 * atan2
        (Real.sqrt (Real.sin (radians (0 - 0) / 2) ^ 2 +
          Real.cos (radians 0) * Real.cos (radians 0) *
            Real.sin (radians (90 - 0) / 2) ^ 2))
        (Real.sqrt (1 - (Real.sin (radians (0 - 0) / 2) ^ 2 +
          Real.cos (radians 0) * Real.cos (radians 0) *
            Real.sin (radians (90 - 0) / 2) ^ 2)))) =
      6371 * (Real.pi / 2)
    rw [show radians ((0 : ℝ) - 0) = 0 by simp [radians],
      show radians ((90 : ℝ) - 0) = 90 * (Real.pi / 180) by simp [radians],
      show radians 0 = 0 by simp [radians], h4]
    simp only [zero_div, Real.sin_zero, Real.cos_zero, one_mul, ne_eq,
      OfNat.ofNat_ne_zero, not_false_eq_true, zero_pow, zero_add]
    have hcos : 1 - Real.sin (Real.pi / 4) ^ 2 = Real.cos (Real.pi / 4) ^ 2 := by
      have := Real.sin_sq_add_cos_sq (Real.pi / 4)
      linarith
    have hcpos : 0 < Real.cos (Real.pi / 4) := by
      rw [Real.cos_pi_div_four]; positivity
    rw [hcos, Real.sqrt_sq hcpos.le, sqrt_sin_sq_pi_div_four]
    rw [atan2, if_pos hcpos, ← Real.tan_eq_sin_div_cos,
      Real.tan_pi_div_four, Real.arctan_one]
    ring
  · have := Real.pi_pos
    intro h
    nlinarith

/-! ## Claim C8: route endpoints -/

theorem grafo_fold_coords (G : RoadGraph) (path : List ℕ) (l : List ℕ) :
    ∀ acc : List RouteWaypoint × ℚ × ℚ × ℕ,
      ((l.foldl (grafo_step G path) acc).1).map
          (fun w => (w.latitude, w.longitude)) =
        acc.1.map (fun w => (w.latitude, w.longitude)) ++ l.map G.coords := by
  induction l with
  | nil => intro acc; simp
  | cons n rest ih =>
    intro acc
    obtain ⟨wps, td, tt, i⟩ := acc
    rw [List.foldl_cons, ih]
    simp [grafo_step]

/-- **C8, counterexample.**  On a road graph whose only node lies at
`(1, 1)`, the real-graph route requested from `(0, 0)` to `(2, 2)` has
`(1, 1)` as its single waypoint: the first waypoint does not equal the
requested origin (nor the last the destination) within any tolerance —
the waypoints are the nearest graph nodes, not the requested endpoints. -/
theorem C8_real_graph_endpoints_cex :
    ((calcular_rota_detalhada_grafo oneNodeGraph 0 0 2 2 "r1").waypoints.map
      (fun w => (w.latitude, w.longitude))) = [((1 : ℚ), (1 : ℚ))] ∧
    ((1 : ℚ), (1 : ℚ)) ≠ ((0 : ℚ), (0 : ℚ)) ∧
    ((1 : ℚ), (1 : ℚ)) ≠ ((2 : ℚ), (2 : ℚ)) := by
  refine ⟨rfl, by decide, by decide⟩

/-- **C8, amended.**  The synthetic fallback route starts exactly at the
requested origin and ends exactly at the requested destination; the
real-graph route starts at the coordinates of the graph node nearest to the
origin and ends at those of the node nearest to the destination (which need
not be the requested endpoints).  The hypothesis on `shortest_path` is the
`networkx` contract: a returned path runs from its source to its target. -/
theorem C8_route_endpoints (geo : GeoFns) (olat olon dlat dlon : ℚ)
    (rid : String) (G : RoadGraph)
    (hpath : ∀ a b, (G.shortest_path a b).head? = some a ∧
      (G.shortest_path a b).getLast? = some b) :
    ((calcular_rota_sintetica geo olat olon dlat dlon rid).waypoints.map
        (fun w => (w.latitude, w.longitude))).head? = some (olat, olon) ∧
    ((calcular_rota_sintetica geo olat olon dlat dlon rid).waypoints.map
        (fun w => (w.latitude, w.longitude))).getLast? = some (dlat, dlon) ∧
    ((calcular_rota_detalhada_grafo G olat olon dlat dlon rid).waypoints.map
        (fun w => (w.latitude, w.longitude))).head? =
      some (G.coords (G.nearest_nodes olon olat)) ∧
    ((calcular_rota_detalhada_grafo G olat olon dlat dlon rid).waypoints.map
        (fun w => (w.latitude, w.longitude))).getLast? =
      some (G.coords (G.nearest_nodes dlon dlat)) := by
  have hw : (calcular_rota_sintetica geo olat olon dlat dlon rid).waypoints =
      (List.range 10).map (fun (i : ℕ) =>
        { latitude := olat + (dlat - olat) / ((10 : ℚ) - 1) * (i : ℚ),
          longitude := olon + (dlon - olon) / ((10 : ℚ) - 1) * (i : ℚ),
          sequence := i,
          estimated_time := geo.hdist olat olon dlat dlon / 25 * 60 /
            ((10 : ℚ) - 1) * (i : ℚ),
          is_stop := i == 0 || i == 9 : RouteWaypoint }) := rfl
  refine ⟨?_, ?_, ?_, ?_⟩
  · rw [hw, show List.range 10 = [0, 1, 2, 3, 4, 5, 6, 7, 8, 9] from rfl]
    simp
  · rw [hw, show List.range 10 = [0, 1, 2, 3, 4, 5, 6, 7, 8, 9] from rfl]
    simp only [List.map_cons, List.map_nil, List.getLast?_cons_cons,
      List.getLast?_singleton, Option.some.injEq, Prod.mk.injEq]
    constructor <;> · push_cast; ring
  · rw [show (calcular_rota_detalhada_grafo G olat olon dlat dlon rid).waypoints
        = ((G.shortest_path (G.nearest_nodes olon olat)
            (G.nearest_nodes dlon dlat)).foldl
          (grafo_step G (G.shortest_path (G.nearest_nodes olon olat)
            (G.nearest_nodes dlon dlat))) ([], 0, 0, 0)).1 from rfl,
      grafo_fold_coords]
    rw [List.map_nil, List.nil_append, List.head?_map,
      (hpath (G.nearest_nodes olon olat) (G.nearest_nodes dlon dlat)).1]
    rfl
  · rw [show (calcular_rota_detalhada_grafo G olat olon dlat dlon rid).waypoints
        = ((G.shortest_path (G.nearest_nodes olon olat)
            (G.nearest_nodes dlon dlat)).foldl
          (grafo_step G (G.shortest_path (G.nearest_nodes olon olat)
            (G.nearest_nodes dlon dlat))) ([], 0, 0, 0)).1 from rfl,
      grafo_fold_coords]
    rw [List.map_nil, List.nil_append, List.getLast?_map,
      (hpath (G.nearest_nodes olon olat) (G.nearest_nodes dlon dlat)).2]
    rfl

theorem C8_route_endpoints_witness :
    ((calcular_rota_sintetica geoZero 0 0 2 2 "r2").waypoints.map
        (fun w => (w.latitude, w.longitude))).head? = some (0, 0) ∧
    ((calcular_rota_sintetica geoZero 0 0 2 2 "r2").waypoints.map
        (fun w => (w.latitude, w.longitude))).getLast? = some (2, 2) ∧
    ((calcular_rota_detalhada_grafo twoNodeGraph 0 0 2 2 "r2").waypoints.map
        (fun w => (w.latitude, w.longitude))).head? =
      some (twoNodeGraph.coords (twoNodeGraph.nearest_nodes 0 0)) ∧
    ((calcular_rota_detalhada_grafo twoNodeGraph 0 0 2 2 "r2").waypoints.map
        (fun w => (w.latitude, w.longitude))).getLast? =
      some (twoNodeGraph.coords (twoNodeGraph.nearest_nodes 2 2)) :=
  C8_route_endpoints geoZero 0 0 2 2 "r2" twoNodeGraph (by
    intro a b
    simp only [twoNodeGraph]
    by_cases h : a = b
    · subst h; simp
    · rw [if_neg (by simpa using h)]; simp)

/-! ## Claim C9: broadcast change detection -/

/-- **C9.**  In an iteration of the broadcast loop for a network that is
broadcasting and has subscribers: if the freshly computed snapshot equals the
last-sent one, no message is sent to anyone; if no snapshot was ever sent or
the snapshot differs, the message is sent to exactly the current subscribers
whose connection is still open. -/
theorem C9_broadcast_change_detection {α : Type} [DecidableEq α]
    (mgr : ConnectionManager α) (rede_id : String) (current : α)
    (send_fail : Conn → Bool) (conns : List Conn)
    (hb : dgetD mgr.broadcasting rede_id false = true)
    (hc : dget mgr.active_connections rede_id = some conns)
    (hne : conns ≠ []) :
    (∀ last, dget mgr.last_data rede_id = some last → current = last →
      (broadcast_iteration mgr rede_id current send_fail).2 = []) ∧
    ((dget mgr.last_data rede_id = none ∨
        ∀ last, dget mgr.last_data rede_id = some last → current ≠ last) →
      (broadcast_iteration mgr rede_id current send_fail).2 =
        conns.filter (·.connected)) := by
  have hioe : conns.isEmpty = false := by
    cases conns with
    | nil => exact absurd rfl hne
    | cons c cs => rfl
  constructor
  · intro last hlast heq
    simp only [broadcast_iteration, hb, Bool.not_true, Bool.false_eq_true,
      if_false, hc, hioe, heq, hlast]
    simp
  · intro hdiff
    have hsends : ∀ m : ConnectionManager α,
        dget m.active_connections rede_id = some conns →
        (broadcast_to_network m rede_id send_fail).2 =
          conns.filter (·.connected) := by
      intro m hm
      unfold broadcast_to_network
      rw [hm]
      dsimp only
      split <;> rfl
    cases hld : dget mgr.last_data rede_id with
    | none =>
      simp only [broadcast_iteration, hb, Bool.not_true, Bool.false_eq_true,
        if_false, hc, hioe, hld]
      exact hsends _ hc
    | some last =>
      have hnl : current ≠ last := by
        rcases hdiff with h | h
        · rw [hld] at h; cases h
        · exact h last hld
      simp only [broadcast_iteration, hb, Bool.not_true, Bool.false_eq_true,
        if_false, hc, hioe, hld, hnl, ne_eq, not_false_eq_true, if_true]
      exact hsends _ hc

theorem C9_broadcast_change_detection_witness :
    (∀ last, dget (α := ℕ)
        { active_connections := [("n", [⟨0, true⟩, ⟨1, false⟩])],
          last_data := [("n", 7)],
          broadcasting := [("n", true)] : ConnectionManager ℕ }.last_data
        "n" = some last → 7 = last →
      (broadcast_iteration
        { active_connections := [("n", [⟨0, true⟩, ⟨1, false⟩])],
          last_data := [("n", 7)], broadcasting := [("n", true)] }
        "n" 7 (fun _ => false)).2 = []) ∧
    ((dget (α := ℕ)
        { active_connections := [("n", [⟨0, true⟩, ⟨1, false⟩])],
          last_data := [("n", 7)],
          broadcasting := [("n", true)] : ConnectionManager ℕ }.last_data
        "n" = none ∨
      ∀ last, dget (α := ℕ)
        { active_connections := [("n", [⟨0, true⟩, ⟨1, false⟩])],
          last_data := [("n", 7)],
          broadcasting := [("n", true)] : ConnectionManager ℕ }.last_data
        "n" = some last → 7 ≠ last) →
      (broadcast_iteration
        { active_connections := [("n", [⟨0, true⟩, ⟨1, false⟩])],
          last_data := [("n", 7)], broadcasting := [("n", true)] }
        "n" 7 (fun _ => false)).2 =
        [⟨0, true⟩, ⟨1, false⟩].filter (·.connected)) :=
  C9_broadcast_change_detection
    { active_connections := [("n", [⟨0, true⟩, ⟨1, false⟩])],
      last_data := [("n", 7)], broadcasting := [("n", true)] }
    "n" 7 (fun _ => false) [⟨0, true⟩, ⟨1, false⟩]
    (by decide) (by decide) (by decide)

/-! ## Claim C10: observer-visible vehicle positions -/

/-- **C10.**  `obter_todas_posicoes_veiculos` for a cached network returns
exactly the stored positions of that network's vehicles except those whose
position status is `"idle"` and whose movement state (in the consulted
movement service, when one exists) carries no `current_client_id`. -/
theorem C10_positions_filter (redes_cache : Dict Rede)
    (movement_states : Option (Dict VehicleMovementState))
    (positions : Dict VehiclePosition) (rid : String) (rede : Rede)
    (hr : dget redes_cache rid = some rede) (hne : rid ≠ "") :
    ∀ p, p ∈ obter_todas_posicoes_veiculos redes_cache movement_states
        positions (some rid) ↔
      (p ∈ positions.map (·.2) ∧
        rede.veiculos.any (fun v => v.id == p.vehicle_id) = true ∧
        (p.status ≠ "idle" ∨
          ∃ states st, movement_states = some states ∧
            dget states p.vehicle_id = some st ∧
            st.current_client_id.isSome = true)) := by
  intro p
  simp only [obter_todas_posicoes_veiculos, if_neg hne, hr]
  rw [List.mem_filter, List.mem_filter]
  constructor
  · rintro ⟨⟨hmem, hrede⟩, hkeep⟩
    refine ⟨hmem, hrede, ?_⟩
    by_cases hs : p.status = "idle"
    · right
      rw [if_neg (by simp [hs])] at hkeep
      cases hms : movement_states with
      | none => simp only [hms] at hkeep; cases hkeep
      | some states =>
        simp only [hms] at hkeep
        cases hst : dget states p.vehicle_id with
        | none => simp only [hst] at hkeep; cases hkeep
        | some st =>
          simp only [hst] at hkeep
          exact ⟨states, st, rfl, hst, hkeep⟩
    · exact Or.inl hs
  · rintro ⟨hmem, hrede, hvis⟩
    refine ⟨⟨hmem, hrede⟩, ?_⟩
    by_cases hs : p.status = "idle"
    · rcases hvis with h | ⟨states, st, hms, hst, hcl⟩
      · exact absurd hs h
      · rw [if_neg (by simp [hs])]
        simp only [hms, hst]
        exact hcl
    · rw [if_pos (by simpa using hs)]

theorem C10_positions_filter_witness :
    posW ∈ obter_todas_posicoes_veiculos [("n", redeW)] (some statesW)
        positionsW (some "n") ↔
      (posW ∈ positionsW.map (·.2) ∧
        redeW.veiculos.any (fun v => v.id == posW.vehicle_id) = true ∧
        (posW.status ≠ "idle" ∨
          ∃ states st, some statesW = some states ∧
            dget states posW.vehicle_id = some st ∧
            st.current_client_id.isSome = true)) :=
  C10_positions_filter [("n", redeW)] (some statesW) positionsW "n" redeW
    (by rfl) (by decide) posW

end DeliverySystem
